import Mathlib

/-!
Verification development for the math-convert repository: a shallow embedding
of the tokenizer (src/lexer.js), the two recursive-descent parsers
(src/text-to-ast.js, src/latex-to-ast.js) and the text printer
(src/ast-to-text.js), together with theorems settling the specification
claims.  JS strings are modelled as `List Char`; JS regular-expression rules
are translated rule-by-rule into explicit matcher functions; JS numbers are
modelled as exact rationals (every numeric literal occurring in the theorems
below is exactly representable as an IEEE double, so the modelling is faithful
on those values); the mutable parser state is threaded explicitly and thrown
exceptions become `Except` errors.  Recursive-descent recursion is made total
with an explicit fuel parameter; `convert` supplies fuel that is ample for
every input considered, and fuel appears as a universally quantified variable
in the theorems that need generality.
-/

/-- Characters of a JS string, in order. -/
abbrev Chars := List Char

/-- The characters matched by the JS regular-expression class backslash-s
(whitespace). -/
def isJsWhitespace (c : Char) : Bool :=
  c = ' ' || c = '\t' || c = '\n' || c = '\r' || c = '\x0b' || c = '\x0c' ||
  c = ' ' || c = ' ' ||
  (' ' ≤ c && c ≤ ' ') ||
  c = ' ' || c = ' ' || c = ' ' || c = ' ' ||
  c = '　' || c = '﻿'

/-- The characters matched by the JS class backslash-w (word characters),
used for the word-boundary assertions in the token rules. -/
def isJsWordChar (c : Char) : Bool :=
  (('a' ≤ c && c ≤ 'z') || ('A' ≤ c && c ≤ 'Z') || ('0' ≤ c && c ≤ '9') || c = '_')

/-- ASCII letter, the JS class [a-zA-Z]. -/
def isAsciiLetter (c : Char) : Bool :=
  ('a' ≤ c && c ≤ 'z') || ('A' ≤ c && c ≤ 'Z')

/-- ASCII digit, the JS class [0-9]. -/
def isAsciiDigit (c : Char) : Bool := '0' ≤ c && c ≤ '9'

/-- ASCII alphanumeric, the JS class [a-zA-Z0-9]. -/
def isAsciiAlnum (c : Char) : Bool := isAsciiLetter c || isAsciiDigit c

/-- Does `p` occur literally at the head of `s`? -/
def litAt : Chars → Chars → Bool
  | [], _ => true
  | _ :: _, [] => false
  | p :: ps, c :: cs => p = c && litAt ps cs

/-- JS `undefined` coerced to a string, as happens when a missing array
element is concatenated into an error message. -/
def jsUndef : Option String → String
  | some s => s
  | none => "undefined"

/-- JS `String.prototype.toLowerCase`, restricted to ASCII (every string it is
applied to in the sources is ASCII). -/
def jsToLower (s : String) : String :=
  String.mk (s.toList.map (fun c =>
    if 'A' ≤ c && c ≤ 'Z' then Char.ofNat (c.toNat + 32) else c))

/-- A token, as returned by `lexer.advance`: a type tag and the matched text.
The JS token is an array; the one-element arrays produced for EOF and INVALID
have no text, modelled by `none` (reading it in JS yields `undefined`). -/
structure Token where
  ttype : String
  text : Option String
deriving Repr, DecidableEq

/-- Result of applying one lexical rule at the head of the input: the matched
text and the remaining input. -/
abbrev MatchResult := Option (String × Chars)

/-- Match a literal string at the head of the input. -/
def matchLit (lit : String) (s : Chars) : MatchResult :=
  if litAt lit.toList s then some (lit, s.drop lit.toList.length) else none

/-- Match a literal followed by a JS word-boundary assertion (the literals so
used all end in a word character, so the boundary holds exactly when the next
character is not a word character). -/
def matchWordLit (lit : String) (s : Chars) : MatchResult :=
  match matchLit lit s with
  | none => none
  | some (t, rest) =>
    match rest with
    | [] => some (t, rest)
    | c :: _ => if isJsWordChar c then none else some (t, rest)

/-- Match literal `a`, then any run of whitespace, then literal `b`
(rules such as the one for backslash-left followed by a parenthesis). -/
def matchLitWsLit (a b : String) (s : Chars) : MatchResult :=
  match matchLit a s with
  | none => none
  | some (ta, rest) =>
    let (ws, rest2) := rest.span isJsWhitespace
    match matchLit b rest2 with
    | none => none
    | some (tb, rest3) => some (ta ++ String.mk ws ++ tb, rest3)

/-- Like `matchLitWsLit` but with a trailing word-boundary assertion
(rules such as backslash-not whitespace backslash-in). -/
def matchLitWsLitB (a b : String) (s : Chars) : MatchResult :=
  match matchLitWsLit a b s with
  | none => none
  | some (t, rest) =>
    match rest with
    | [] => some (t, rest)
    | c :: _ => if isJsWordChar c then none else some (t, rest)

/-- Match the first NUMBER rule: one or more digits, an optional fraction of a
dot and one or more digits, and an optional exponent of E, an optional sign
and one or more digits. -/
def matchNumber1 (s : Chars) : MatchResult :=
  let (ds, rest) := s.span isAsciiDigit
  if ds.isEmpty then none else
  let (frac, rest2) :=
    match rest with
    | '.' :: r =>
      let (fs, r2) := r.span isAsciiDigit
      if fs.isEmpty then (([] : Chars), rest) else ('.' :: fs, r2)
    | _ => ([], rest)
  let (expo, rest3) :=
    match rest2 with
    | 'E' :: '+' :: r =>
      let (es, r2) := r.span isAsciiDigit
      if es.isEmpty then (([] : Chars), rest2) else ('E' :: '+' :: es, r2)
    | 'E' :: '-' :: r =>
      let (es, r2) := r.span isAsciiDigit
      if es.isEmpty then (([] : Chars), rest2) else ('E' :: '-' :: es, r2)
    | 'E' :: r =>
      let (es, r2) := r.span isAsciiDigit
      if es.isEmpty then (([] : Chars), rest2) else ('E' :: es, r2)
    | _ => ([], rest2)
  some (String.mk (ds ++ frac ++ expo), rest3)

/-- Match the second NUMBER rule: a dot, one or more digits and an optional
exponent. -/
def matchNumber2 (s : Chars) : MatchResult :=
  match s with
  | '.' :: r =>
    let (fs, r2) := r.span isAsciiDigit
    if fs.isEmpty then none else
    let (expo, rest3) :=
      match r2 with
      | 'E' :: '+' :: r3 =>
        let (es, r4) := r3.span isAsciiDigit
        if es.isEmpty then (([] : Chars), r2) else ('E' :: '+' :: es, r4)
      | 'E' :: '-' :: r3 =>
        let (es, r4) := r3.span isAsciiDigit
        if es.isEmpty then (([] : Chars), r2) else ('E' :: '-' :: es, r4)
      | 'E' :: r3 =>
        let (es, r4) := r3.span isAsciiDigit
        if es.isEmpty then (([] : Chars), r2) else ('E' :: es, r4)
      | _ => ([], r2)
    some (String.mk ('.' :: fs ++ expo), rest3)
  | _ => none

/-- Match the AND rule: an ampersand with an optional second ampersand. -/
def matchAmpAmp (s : Chars) : MatchResult :=
  match s with
  | '&' :: '&' :: r => some ("&&", r)
  | '&' :: r => some ("&", r)
  | _ => none

/-- Match an identifier: an ASCII letter followed by ASCII alphanumerics. -/
def matchIdent (s : Chars) : MatchResult :=
  match s with
  | c :: rest =>
    if isAsciiLetter c then
      let (tl, r) := rest.span isAsciiAlnum
      some (String.mk (c :: tl), r)
    else none
  | [] => none

/-- Match a single ASCII letter (the LaTeX VAR rule). -/
def matchLetter (s : Chars) : MatchResult :=
  match s with
  | c :: rest => if isAsciiLetter c then some (String.mk [c], rest) else none
  | [] => none

/-- Match a LaTeX command: a backslash, an ASCII letter, then ASCII
alphanumerics. -/
def matchLatexCommand (s : Chars) : MatchResult :=
  match s with
  | '\\' :: c :: rest =>
    if isAsciiLetter c then
      let (tl, r) := rest.span isAsciiAlnum
      some (String.mk ('\\' :: c :: tl), r)
    else none
  | _ => none

/-- Match a command of the form cmd, whitespace, open brace, whitespace, an
alphanumeric name, whitespace, close brace (the begin-environment,
end-environment and var rules of the LaTeX lexer). -/
def matchCmdBraceName (cmd : String) (s : Chars) : MatchResult :=
  match matchLit cmd s with
  | none => none
  | some (t0, r0) =>
    let (w1, r1) := r0.span isJsWhitespace
    match r1 with
    | '\x7b' :: r2 =>
      let (w2, r3) := r2.span isJsWhitespace
      let (nm, r4) := r3.span isAsciiAlnum
      if nm.isEmpty then none else
      let (w3, r5) := r4.span isJsWhitespace
      match r5 with
      | '\x7d' :: r6 =>
        some (t0 ++ String.mk w1 ++ "\x7b" ++ String.mk w2 ++ String.mk nm ++
              String.mk w3 ++ "\x7d", r6)
      | _ => none
    | _ => none

/-- Match the DERIVATIVE rule: d, a letter, whitespace, slash, whitespace, d,
a letter, and a word boundary. -/
def matchDerivative (s : Chars) : MatchResult :=
  match s with
  | 'd' :: a :: rest =>
    if isAsciiLetter a then
      let (w1, r1) := rest.span isJsWhitespace
      match r1 with
      | '/' :: r2 =>
        let (w2, r3) := r2.span isJsWhitespace
        match r3 with
        | 'd' :: b :: r4 =>
          if isAsciiLetter b then
            match r4 with
            | c :: _ =>
              if isJsWordChar c then none
              else some (String.mk ('d' :: a :: w1 ++ '/' :: w2 ++ ['d', b]), r4)
            | [] => some (String.mk ('d' :: a :: w1 ++ '/' :: w2 ++ ['d', b]), r4)
          else none
        | _ => none
      | _ => none
    else none
  | _ => none

/-- Match the DERIVATIVEMULT rule: d, caret, a digit, a letter, whitespace,
slash, whitespace, d, a letter, caret, the same digit again (a back
reference), and a word boundary. -/
def matchDerivativeMult (s : Chars) : MatchResult :=
  match s with
  | 'd' :: '^' :: n :: x :: rest =>
    if isAsciiDigit n && isAsciiLetter x then
      let (w1, r1) := rest.span isJsWhitespace
      match r1 with
      | '/' :: r2 =>
        let (w2, r3) := r2.span isJsWhitespace
        match r3 with
        | 'd' :: y :: '^' :: m :: r4 =>
          if isAsciiLetter y && m = n then
            match r4 with
            | c :: _ =>
              if isJsWordChar c then none
              else some (String.mk ('d' :: '^' :: n :: x :: w1 ++ '/' :: w2 ++
                         ['d', y, '^', m]), r4)
            | [] => some (String.mk ('d' :: '^' :: n :: x :: w1 ++ '/' :: w2 ++
                         ['d', y, '^', m]), r4)
          else none
        | _ => none
      | _ => none
    else none
  | _ => none

/-- One lexical rule: an anchored pattern, the token type it yields, and an
optional replacement for the matched text (the third element of a JS rule). -/
structure LexRule where
  pat : Chars → MatchResult
  ttype : String
  override : Option String := none

/-- Tokenizer state: the remaining unconsumed input and the running absolute
character offset.  The JS `lexer` instance also stores its rule table; here
the rule table is passed to `lexer.advance` explicitly so that the state
stays comparable by decidable equality. -/
structure lexer where
  input : Chars
  location : Int
deriving Repr, DecidableEq

/-- Try each rule in table order at the head of the input, first match wins. -/
def firstMatch : List LexRule → Chars → Option (LexRule × String × Chars)
  | [], _ => none
  | r :: rs, s =>
    match r.pat s with
    | some (t, rest) => some (r, t, rest)
    | none => firstMatch rs s

/-- `lexer.advance`: remove initial whitespace (the fixed anchored pattern of
one or more whitespace characters declared at the top of src/lexer.js — the
constructor accepts only the rule table, so the whitespace pattern a caller
passes as a second argument is ignored), then return EOF on empty input,
otherwise the first rule match, otherwise an INVALID token with no text. -/
def lexer.advance (rules : List LexRule) (l : lexer) : Token × lexer :=
  let (ws, rest) := l.input.span isJsWhitespace
  let l := { input := rest, location := l.location + ws.length }
  if l.input.isEmpty then (⟨"EOF", none⟩, l)
  else
    match firstMatch rules l.input with
    | some (r, t, rest2) =>
      (⟨r.ttype, some (match r.override with | some o => o | none => t)⟩,
       { input := rest2, location := l.location + t.toList.length })
    | none => (⟨"INVALID", none⟩, l)

/-- `lexer.unput`: prepend a string to the unconsumed input and decrement the
offset by its length. -/
def lexer.unput (l : lexer) (s : String) : lexer :=
  { input := s.toList ++ l.input, location := l.location - s.toList.length }

/-- Build a two-element rule. -/
def lr (p : Chars → MatchResult) (t : String) : LexRule := { pat := p, ttype := t }

/-- Build a three-element rule (with a replacement text). -/
def lro (p : Chars → MatchResult) (t o : String) : LexRule :=
  { pat := p, ttype := t, override := some o }

/-- The token rules of src/text-to-ast.js, in source order.  Each entry
translates one regular-expression rule of the `text_rules` table. -/
def text_rules : List LexRule := [
  lr matchNumber1 "NUMBER",
  lr matchNumber2 "NUMBER",
  lr (matchLit "**") "^",
  lr (matchLit "*") "*",
  lr (matchLit "·") "*",
  lr (matchLit "·") "*",
  lr (matchLit "•") "*",
  lr (matchLit "⋅") "*",
  lr (matchLit "×") "*",
  lr (matchLit "/") "/",
  lr (matchLit "-") "-",
  lr (matchLit "֊") "-",
  lr (matchLit "־") "-",
  lr (matchLit "᠆") "-",
  lr (matchLit "‐") "-",
  lr (matchLit "‑") "-",
  lr (matchLit "‒") "-",
  lr (matchLit "–") "-",
  lr (matchLit "—") "-",
  lr (matchLit "―") "-",
  lr (matchLit "⁻") "-",
  lr (matchLit "₋") "-",
  lr (matchLit "−") "-",
  lr (matchLit "⸺") "-",
  lr (matchLit "⸻") "-",
  lr (matchLit "﹘") "-",
  lr (matchLit "﹣") "-",
  lr (matchLit "－") "-",
  lr (matchLit "+") "+",
  lr (matchLit "^") "^",
  lr (matchLit "‸") "^",
  lr (matchLit "ʌ") "^",
  lr (matchLit "|") "|",
  lr (matchLit "(") "(",
  lr (matchLit ")") ")",
  lr (matchLit "[") "[",
  lr (matchLit "]") "]",
  lr (matchLit "\x7b") "\x7b",
  lr (matchLit "\x7d") "\x7d",
  lr (matchLit ",") ",",
  lro (matchLit "α") "VARMULTICHAR" "alpha",
  lr (matchLit "β") "beta",
  lro (matchLit "ϐ") "VARMULTICHAR" "beta",
  lro (matchLit "Γ") "VARMULTICHAR" "Gamma",
  lro (matchLit "γ") "VARMULTICHAR" "gamma",
  lro (matchLit "Δ") "VARMULTICHAR" "Delta",
  lro (matchLit "δ") "VARMULTICHAR" "delta",
  lro (matchLit "ε") "VARMULTICHAR" "epsilon",
  lro (matchLit "ϵ") "VARMULTICHAR" "epsilon",
  lro (matchLit "ζ") "VARMULTICHAR" "zeta",
  lro (matchLit "η") "VARMULTICHAR" "eta",
  lro (matchLit "Θ") "VARMULTICHAR" "Theta",
  lro (matchLit "ϴ") "VARMULTICHAR" "Theta",
  lro (matchLit "θ") "VARMULTICHAR" "theta",
  lro (matchLit "ᶿ") "VARMULTICHAR" "theta",
  lro (matchLit "ϑ") "VARMULTICHAR" "theta",
  lro (matchLit "ι") "VARMULTICHAR" "iota",
  lro (matchLit "κ") "VARMULTICHAR" "kappa",
  lro (matchLit "Λ") "VARMULTICHAR" "Lambda",
  lro (matchLit "λ") "VARMULTICHAR" "lambda",
  lro (matchLit "μ") "VARMULTICHAR" "mu",
  lro (matchLit "µ") "VARMULTICHAR" "mu",
  lro (matchLit "ν") "VARMULTICHAR" "nu",
  lro (matchLit "Ξ") "VARMULTICHAR" "Xi",
  lro (matchLit "ξ") "VARMULTICHAR" "xi",
  lro (matchLit "Π") "VARMULTICHAR" "Pi",
  lro (matchLit "π") "VARMULTICHAR" "pi",
  lro (matchLit "ϖ") "VARMULTICHAR" "pi",
  lro (matchLit "ρ") "VARMULTICHAR" "rho",
  lro (matchLit "ϱ") "VARMULTICHAR" "rho",
  lro (matchLit "Σ") "VARMULTICHAR" "Sigma",
  lro (matchLit "σ") "VARMULTICHAR" "sigma",
  lro (matchLit "ς") "VARMULTICHAR" "sigma",
  lro (matchLit "τ") "VARMULTICHAR" "tau",
  lro (matchLit "Υ") "VARMULTICHAR" "Upsilon",
  lro (matchLit "υ") "VARMULTICHAR" "upsilon",
  lro (matchLit "Φ") "VARMULTICHAR" "Phi",
  lro (matchLit "φ") "VARMULTICHAR" "phi",
  lro (matchLit "ϕ") "VARMULTICHAR" "phi",
  lro (matchLit "Ψ") "VARMULTICHAR" "Psi",
  lro (matchLit "ψ") "VARMULTICHAR" "psi",
  lro (matchLit "Ω") "VARMULTICHAR" "Omega",
  lro (matchLit "ω") "VARMULTICHAR" "omega",
  lr (matchWordLit "oo") "INFINITY",
  lr (matchWordLit "OO") "INFINITY",
  lr (matchWordLit "infty") "INFINITY",
  lr (matchWordLit "infinity") "INFINITY",
  lr (matchWordLit "Infinity") "INFINITY",
  lr (matchLit "∞") "INFINITY",
  lro (matchLit "ℯ") "VAR" "e",
  lro (matchLit "♠") "VARMULTICHAR" "spade",
  lro (matchLit "♡") "VARMULTICHAR" "heart",
  lro (matchLit "♢") "VARMULTICHAR" "diamond",
  lro (matchLit "♣") "VARMULTICHAR" "club",
  lro (matchLit "★") "VARMULTICHAR" "bigstar",
  lro (matchLit "◯") "VARMULTICHAR" "bigcirc",
  lro (matchLit "◊") "VARMULTICHAR" "lozenge",
  lro (matchLit "△") "VARMULTICHAR" "bigtriangleup",
  lro (matchLit "▽") "VARMULTICHAR" "bigtriangledown",
  lro (matchLit "⧫") "VARMULTICHAR" "blacklozenge",
  lro (matchLit "■") "VARMULTICHAR" "blacksquare",
  lro (matchLit "▲") "VARMULTICHAR" "blacktriangle",
  lro (matchLit "▼") "VARMULTICHAR" "blacktriangledown",
  lro (matchLit "◀") "VARMULTICHAR" "blacktriangleleft",
  lro (matchLit "▶") "VARMULTICHAR" "blacktriangleright",
  lro (matchLit "□") "VARMULTICHAR" "Box",
  lro (matchLit "∘") "VARMULTICHAR" "circ",
  lro (matchLit "⋆") "VARMULTICHAR" "star",
  lr (matchWordLit "and") "AND",
  lr matchAmpAmp "AND",
  lr (matchLit "∧") "AND",
  lr (matchWordLit "or") "OR",
  lr (matchLit "∨") "OR",
  lr (matchWordLit "not") "NOT",
  lr (matchLit "¬") "NOT",
  lr (matchLit "=") "=",
  lr (matchLit "᐀") "=",
  lr (matchLit "゠") "=",
  lr (matchLit "!=") "NE",
  lr (matchLit "≠") "NE",
  lr (matchLit "<=") "LE",
  lr (matchLit "≤") "LE",
  lr (matchLit ">=") "GE",
  lr (matchLit "≥") "GE",
  lr (matchLit "<") "<",
  lr (matchLit ">") ">",
  lr (matchWordLit "elementof") "IN",
  lr (matchLit "∈") "IN",
  lr (matchWordLit "notelementof") "NOTIN",
  lr (matchLit "∉") "NOTIN",
  lr (matchWordLit "containselement") "NI",
  lr (matchLit "∋") "NI",
  lr (matchWordLit "notcontainselement") "NOTNI",
  lr (matchLit "∌") "NOTNI",
  lr (matchWordLit "subset") "SUBSET",
  lr (matchLit "⊂") "SUBSET",
  lr (matchWordLit "notsubset") "NOTSUBSET",
  lr (matchLit "⊄") "NOTSUBSET",
  lr (matchWordLit "superset") "SUPERSET",
  lr (matchLit "⊃") "SUPERSET",
  lr (matchWordLit "notsuperset") "NOTSUPERSET",
  lr (matchLit "⊅") "NOTSUPERSET",
  lr (matchWordLit "union") "UNION",
  lr (matchLit "∪") "UNION",
  lr (matchWordLit "intersect") "INTERSECT",
  lr (matchLit "∩") "INTERSECT",
  lr (matchLit "!") "!",
  lr (matchLit "\x27") "\x27",
  lr (matchLit "_") "_",
  lr matchDerivative "DERIVATIVE",
  lr matchDerivativeMult "DERIVATIVEMULT",
  lr matchIdent "VAR"]

/-- The whitespace rule declared in src/latex-to-ast.js and passed as a second
argument to the `lexer` constructor.  The constructor accepts only the rule
table, so this value is dead: `lexer.advance` always uses the fixed anchored
whitespace pattern. -/
def whitespace_rule : String :=
  "(\\s|\\\\,|\\\\!|\\\\ |\\\\>|\\\\;|\\\\:|\\\\quad\\b|\\\\qquad\\b)+"

/-- The token rules of src/latex-to-ast.js, in source order. -/
def latex_rules : List LexRule := [
  lr matchNumber1 "NUMBER",
  lr matchNumber2 "NUMBER",
  lr (matchLit "*") "*",
  lr (matchLit "/") "/",
  lr (matchLit "-") "-",
  lr (matchLit "+") "+",
  lr (matchLit "^") "^",
  lr (matchLit "(") "(",
  lr (matchLitWsLit "\\left" "(") "(",
  lr (matchLitWsLit "\\bigl" "(") "(",
  lr (matchLitWsLit "\\Bigl" "(") "(",
  lr (matchLitWsLit "\\biggl" "(") "(",
  lr (matchLitWsLit "\\Biggl" "(") "(",
  lr (matchLit ")") ")",
  lr (matchLitWsLit "\\right" ")") ")",
  lr (matchLitWsLit "\\bigr" ")") ")",
  lr (matchLitWsLit "\\Bigr" ")") ")",
  lr (matchLitWsLit "\\biggr" ")") ")",
  lr (matchLitWsLit "\\Biggr" ")") ")",
  lr (matchLit "[") "[",
  lr (matchLitWsLit "\\left" "[") "[",
  lr (matchLitWsLit "\\bigl" "[") "[",
  lr (matchLitWsLit "\\Bigl" "[") "[",
  lr (matchLitWsLit "\\biggl" "[") "[",
  lr (matchLitWsLit "\\Biggl" "[") "[",
  lr (matchLit "]") "]",
  lr (matchLitWsLit "\\right" "]") "]",
  lr (matchLitWsLit "\\bigr" "]") "]",
  lr (matchLitWsLit "\\Bigr" "]") "]",
  lr (matchLitWsLit "\\biggr" "]") "]",
  lr (matchLitWsLit "\\Biggr" "]") "]",
  lr (matchLit "|") "|",
  lr (matchLitWsLit "\\left" "|") "|",
  lr (matchLitWsLit "\\bigl" "|") "|",
  lr (matchLitWsLit "\\Bigl" "|") "|",
  lr (matchLitWsLit "\\biggl" "|") "|",
  lr (matchLitWsLit "\\Biggl" "|") "|",
  lr (matchLitWsLit "\\right" "|") "|",
  lr (matchLitWsLit "\\bigr" "|") "|",
  lr (matchLitWsLit "\\Bigr" "|") "|",
  lr (matchLitWsLit "\\biggr" "|") "|",
  lr (matchLitWsLit "\\Biggr" "|") "|",
  lr (matchLitWsLit "\\big" "|") "|",
  lr (matchLitWsLit "\\Big" "|") "|",
  lr (matchLitWsLit "\\bigg" "|") "|",
  lr (matchLitWsLit "\\Bigg" "|") "|",
  lr (matchLit "\x7b") "\x7b",
  lr (matchLit "\x7d") "\x7d",
  lr (matchLit "\\\x7b") "LBRACE",
  lr (matchLitWsLit "\\left" "\\\x7b") "LBRACE",
  lr (matchLitWsLit "\\bigl" "\\\x7b") "LBRACE",
  lr (matchLitWsLit "\\Bigl" "\\\x7b") "LBRACE",
  lr (matchLitWsLit "\\biggl" "\\\x7b") "LBRACE",
  lr (matchLitWsLit "\\Biggl" "\\\x7b") "LBRACE",
  lr (matchLit "\\\x7d") "RBRACE",
  lr (matchLitWsLit "\\right" "\\\x7d") "RBRACE",
  lr (matchLitWsLit "\\bigr" "\\\x7d") "RBRACE",
  lr (matchLitWsLit "\\Bigr" "\\\x7d") "RBRACE",
  lr (matchLitWsLit "\\biggr" "\\\x7d") "RBRACE",
  lr (matchLitWsLit "\\Biggr" "\\\x7d") "RBRACE",
  lr (matchWordLit "\\cdot") "*",
  lr (matchWordLit "\\times") "*",
  lr (matchWordLit "\\frac") "FRAC",
  lr (matchLit ",") ",",
  lro (matchWordLit "\\vartheta") "LATEXCOMMAND" "\\theta",
  lro (matchWordLit "\\varepsilon") "LATEXCOMMAND" "\\epsilon",
  lro (matchWordLit "\\varrho") "LATEXCOMMAND" "\\rho",
  lro (matchWordLit "\\varphi") "LATEXCOMMAND" "\\phi",
  lr (matchWordLit "\\infty") "INFINITY",
  lro (matchWordLit "\\asin") "LATEXCOMMAND" "\\arcsin",
  lro (matchWordLit "\\acos") "LATEXCOMMAND" "\\arccos",
  lro (matchWordLit "\\atan") "LATEXCOMMAND" "\\arctan",
  lr (matchWordLit "\\sqrt") "SQRT",
  lr (matchWordLit "\\land") "AND",
  lr (matchWordLit "\\wedge") "AND",
  lr (matchWordLit "\\lor") "OR",
  lr (matchWordLit "\\vee") "OR",
  lr (matchWordLit "\\lnot") "NOT",
  lr (matchLit "=") "=",
  lr (matchWordLit "\\neq") "NE",
  lr (matchWordLit "\\ne") "NE",
  lr (matchLitWsLit "\\not" "=") "NE",
  lr (matchWordLit "\\leq") "LE",
  lr (matchWordLit "\\le") "LE",
  lr (matchWordLit "\\geq") "GE",
  lr (matchWordLit "\\ge") "GE",
  lr (matchLit "<") "<",
  lr (matchWordLit "\\lt") "<",
  lr (matchLit ">") ">",
  lr (matchWordLit "\\gt") ">",
  lr (matchWordLit "\\in") "IN",
  lr (matchWordLit "\\notin") "NOTIN",
  lr (matchLitWsLitB "\\not" "\\in") "NOTIN",
  lr (matchWordLit "\\ni") "NI",
  lr (matchLitWsLitB "\\not" "\\ni") "NOTNI",
  lr (matchWordLit "\\subset") "SUBSET",
  lr (matchLitWsLitB "\\not" "\\subset") "NOTSUBSET",
  lr (matchWordLit "\\supset") "SUPERSET",
  lr (matchLitWsLitB "\\not" "\\supset") "NOTSUPERSET",
  lr (matchWordLit "\\cup") "UNION",
  lr (matchWordLit "\\cap") "INTERSECT",
  lr (matchLit "!") "!",
  lr (matchLit "\x27") "\x27",
  lr (matchLit "_") "_",
  lr (matchLit "&") "&",
  lr (matchLit "\\\\") "LINEBREAK",
  lr (matchCmdBraceName "\\begin") "BEGINENVIRONMENT",
  lr (matchCmdBraceName "\\end") "ENDENVIRONMENT",
  lr (matchCmdBraceName "\\var") "VARMULTICHAR",
  lr matchLatexCommand "LATEXCOMMAND",
  lr matchLetter "VAR"]

/-- The dynamically shaped AST of the sources: a JS value is a number, a
string (a symbol name), a boolean (inside the strictness tuples of chained
relations and the closed-endpoint tuples of intervals), or an array whose
head is an operator tag and whose tail is the operand list.  JS numbers are
modelled as exact rationals; every numeric value occurring in the theorems
of this development is a small integer, on which the modelling agrees with
IEEE doubles. -/
inductive Ast where
  | num (v : ℚ)
  | str (s : String)
  | bool (b : Bool)
  | op (tag : String) (args : List Ast)

mutual
/-- Structural equality test on trees. -/
def Ast.beq : Ast → Ast → Bool
  | .num a, .num b => decide (a = b)
  | .str a, .str b => decide (a = b)
  | .bool a, .bool b => decide (a = b)
  | .op t as, .op u bs => decide (t = u) && Ast.beqList as bs
  | .num _, .str _ => false
  | .num _, .bool _ => false
  | .num _, .op _ _ => false
  | .str _, .num _ => false
  | .str _, .bool _ => false
  | .str _, .op _ _ => false
  | .bool _, .num _ => false
  | .bool _, .str _ => false
  | .bool _, .op _ _ => false
  | .op _ _, .num _ => false
  | .op _ _, .str _ => false
  | .op _ _, .bool _ => false

/-- Structural equality test on operand lists. -/
def Ast.beqList : List Ast → List Ast → Bool
  | [], [] => true
  | a :: as, b :: bs => Ast.beq a b && Ast.beqList as bs
  | [], _ :: _ => false
  | _ :: _, [] => false
end

mutual
theorem Ast.beq_iff : ∀ (a b : Ast), (Ast.beq a b = true) ↔ a = b
  | .num a, .num b => by simp [Ast.beq]
  | .str a, .str b => by simp [Ast.beq]
  | .bool a, .bool b => by simp [Ast.beq]
  | .op t as, .op u bs => by
    simp [Ast.beq, Ast.beqList_iff as bs]
  | .num _, .str _ => by simp [Ast.beq]
  | .num _, .bool _ => by simp [Ast.beq]
  | .num _, .op _ _ => by simp [Ast.beq]
  | .str _, .num _ => by simp [Ast.beq]
  | .str _, .bool _ => by simp [Ast.beq]
  | .str _, .op _ _ => by simp [Ast.beq]
  | .bool _, .num _ => by simp [Ast.beq]
  | .bool _, .str _ => by simp [Ast.beq]
  | .bool _, .op _ _ => by simp [Ast.beq]
  | .op _ _, .num _ => by simp [Ast.beq]
  | .op _ _, .str _ => by simp [Ast.beq]
  | .op _ _, .bool _ => by simp [Ast.beq]

theorem Ast.beqList_iff : ∀ (as bs : List Ast), (Ast.beqList as bs = true) ↔ as = bs
  | [], [] => by simp [Ast.beqList]
  | [], _ :: _ => by simp [Ast.beqList]
  | _ :: _, [] => by simp [Ast.beqList]
  | a :: as, b :: bs => by
    simp [Ast.beqList, Ast.beq_iff a b, Ast.beqList_iff as bs]
end

instance : DecidableEq Ast := fun a b =>
  decidable_of_iff (Ast.beq a b = true) (Ast.beq_iff a b)

/-- Value of a decimal digit character. -/
def digitVal (c : Char) : Nat := c.toNat - '0'.toNat

/-- Natural number denoted by a digit string. -/
def digitsToNat (ds : Chars) : Nat := ds.foldl (fun a c => 10 * a + digitVal c) 0

/-- JS `parseFloat`, on the strings produced by the NUMBER, DERIVATIVEMULT
and exponent token shapes: digits, an optional dot-fraction and an optional
E-exponent, evaluated exactly as a rational (the mantissa digits over ten to
the fraction length, scaled by the exponent). -/
def parseFloatQ (s : String) : ℚ :=
  let cs := s.toList
  let (ip, r) := cs.span isAsciiDigit
  let (fp, r2) :=
    match r with
    | '.' :: t => t.span isAsciiDigit
    | _ => ([], r)
  let mant := digitsToNat (ip ++ fp)
  match r2 with
  | 'E' :: '+' :: es => mkRat (mant * 10 ^ digitsToNat es) (10 ^ fp.length)
  | 'E' :: '-' :: es => mkRat mant (10 ^ fp.length * 10 ^ digitsToNat es)
  | 'E' :: es => mkRat (mant * 10 ^ digitsToNat es) (10 ^ fp.length)
  | _ => mkRat mant (10 ^ fp.length)

/-- Modelled from the spec: src/flatten.js is imported by both parsers
(`convert` returns `flatten(result)`) but the file is absent from the
sources.  Spec section 4.3: every maximal run of nested nodes sharing an
associative, order-preserving tag (plus, times, and, or, and the list-like
tuple, array, set, list) is rewritten into one flat node holding all leaves
in left-to-right order; nothing else is rewritten.  These are the tags it
flattens. -/
def flattenOps : List String := ["+", "*", "and", "or", "tuple", "array", "set", "list"]

/-- Splice children carrying the same tag into the operand list. -/
def flattenSplice (t : String) : List Ast → List Ast
  | [] => []
  | c :: cs =>
    (match c with
     | .op t2 args => if t2 = t then args else [c]
     | c => [c]) ++ flattenSplice t cs

mutual
/-- Modelled from the spec: the normalization pass of the missing
src/flatten.js, following spec section 4.3 (see `flattenOps`). -/
def flatten : Ast → Ast
  | .op t args =>
    let args2 := flattenList args
    if flattenOps.contains t then .op t (flattenSplice t args2) else .op t args2
  | a => a

/-- Flatten each member of an operand list. -/
def flattenList : List Ast → List Ast
  | [] => []
  | a :: as => flatten a :: flattenList as
end

/-- Default for allowing parenthesis-free application of applied functions
(shared constant value in both parser sources). -/
def allowSimplifiedFunctionApplicationDefault : Bool := true

/-- Default for splitting multi-character symbols (src/text-to-ast.js). -/
def splitSymbolsDefault : Bool := true

/-- Symbols never split into letter products (src/text-to-ast.js). -/
def unsplitSymbolsDefault : List String :=
  ["pi", "theta", "Theta", "alpha", "nu", "beta", "xi", "Xi", "gamma",
   "Gamma", "delta", "Delta", "pi", "Pi", "epsilon", "epsilon", "rho", "rho",
   "zeta", "sigma", "Sigma", "eta", "tau", "upsilon", "Upsilon", "iota",
   "phi", "phi", "Phi", "kappa", "chi", "lambda", "Lambda", "psi", "Psi",
   "omega", "Omega"]

/-- Applied function names (identical default lists in src/text-to-ast.js
and src/latex-to-ast.js). -/
def appliedFunctionSymbolsDefault : List String :=
  ["abs", "exp", "log", "ln", "log10", "sign", "sqrt", "erf", "acos",
   "acosh", "acot", "acoth", "acsc", "acsch", "asec", "asech", "asin",
   "asinh", "atan", "atanh", "cos", "cosh", "cot", "coth", "csc", "csch",
   "sec", "sech", "sin", "sinh", "tan", "tanh", "arcsin", "arccos",
   "arctan", "arccsc", "arcsec", "arccot", "cosec", "arg"]

/-- Function names that may also act as bare variables (identical default
lists in both parser sources). -/
def functionSymbolsDefault : List String := ["f", "g"]

/-- Allowed bare multicharacter LaTeX command names
(src/latex-to-ast.js). -/
def allowedLatexSymbolsDefault : List String :=
  ["pi", "theta", "theta", "Theta", "alpha", "nu", "beta", "xi", "Xi",
   "gamma", "Gamma", "delta", "Delta", "pi", "Pi", "epsilon", "epsilon",
   "rho", "rho", "zeta", "sigma", "Sigma", "eta", "tau", "upsilon",
   "Upsilon", "iota", "phi", "phi", "Phi", "kappa", "chi", "lambda",
   "Lambda", "psi", "Psi", "omega", "Omega"]

/-- A structured parse failure: message and absolute character offset
(the `ParseError` of the missing src/error.js, whose two constructor
arguments are visible at every throw site). -/
structure ParseError where
  message : String
  location : Int
deriving Repr, DecidableEq

/-- Parser state: the tokenizer state plus the current lookahead token. -/
structure PState where
  lex : lexer
  token : Token
deriving Repr, DecidableEq

/-- Extract the captured alphanumeric name from the text of a token matched
by `matchCmdBraceName` (the parser re-runs the same regular expression on
the token text and takes the first capture group; on the texts produced by
the rule the capture always succeeds). -/
def captureBraceName (cmd : String) (text : String) : String :=
  match matchCmdBraceName cmd text.toList with
  | some _ =>
    let afterCmd := text.toList.drop cmd.toList.length
    let r1 := (afterCmd.span isJsWhitespace).2
    let r2 := r1.drop 1
    let r3 := (r2.span isJsWhitespace).2
    String.mk (r3.span isAsciiAlnum).1
  | none => ""

/-- Extract the two captured letters from a DERIVATIVE token text (the
parser re-runs the regular expression on the token text). -/
def derivLetters (text : String) : String × String :=
  match text.toList with
  | 'd' :: a :: rest =>
    let r1 := ((rest.span isJsWhitespace).2).drop 1
    let r2 := (r1.span isJsWhitespace).2
    match r2 with
    | 'd' :: b :: _ => (String.mk [a], String.mk [b])
    | _ => ("", "")
  | _ => ("", "")

/-- Extract the captured digit and two letters from a DERIVATIVEMULT token
text. -/
def derivMultParts (text : String) : String × String × String :=
  match text.toList with
  | 'd' :: '^' :: n :: x :: rest =>
    let r1 := ((rest.span isJsWhitespace).2).drop 1
    let r2 := (r1.span isJsWhitespace).2
    match r2 with
    | 'd' :: y :: _ => (String.mk [n], String.mk [x], String.mk [y])
    | _ => ("", "", "")
  | _ => ("", "", "")

/-- Rename a list node to a tuple node, leaving anything else unchanged
(the in-place head rewrite `parameters[0] = 'tuple'`). -/
def renameListToTuple : Ast → Ast
  | .op "list" args => .op "tuple" args
  | a => a

/-- The singleton-curly construction of both group branches: the JS
expression is the one-element array holding the set tag, concatenated with
the result.  `Array.prototype.concat` splices an array argument, so an
array-shaped result contributes its tag string and its operands as elements
of the set node (a one-element curly group around x+y yields a set node
whose operands are the plus tag string, x and y), while a non-array result
(a number or a symbol) becomes the single element. -/
def setConcat : Ast → Ast
  | .op t args => .op "set" (.str t :: args)
  | a => .op "set" [a]

/-- Value of a hexadecimal digit character, if any (code points: digits
48-57, lowercase a-f 97-102, uppercase A-F 65-70). -/
def hexDigitVal (c : Char) : Option Nat :=
  let n := c.toNat
  if 48 ≤ n ∧ n ≤ 57 then some (n - 48)
  else if 97 ≤ n ∧ n ≤ 102 then some (n - 87)
  else if 65 ≤ n ∧ n ≤ 70 then some (n - 55)
  else none

/-- Value of a nonempty digit string in the given radix; none when empty or
when any character is not a digit of the radix. -/
def radixDigits (radix : Nat) : Chars → Option Nat
  | [] => none
  | cs =>
    cs.foldl (fun acc c =>
      match acc, hexDigitVal c with
      | some a, some d => if d < radix then some (radix * a + d) else none
      | _, _ => none) (some 0)

/-- JS `Number(s)` on the alphanumeric strings the parsers can produce as
symbol names (letters and digits only, so no sign, dot, or space forms): a
decimal digit string, a 0x/0X hexadecimal, 0o/0O octal or 0b/0B binary
literal, or a digits-e-digits scientific form; every other such string
(including "infinity", which JS only accepts capitalized) converts to NaN,
modelled as none. -/
def jsNameToNumber (s : String) : Option ℚ :=
  match s.toList with
  | '0' :: 'x' :: rest => (radixDigits 16 rest).map (fun n => mkRat n 1)
  | '0' :: 'X' :: rest => (radixDigits 16 rest).map (fun n => mkRat n 1)
  | '0' :: 'o' :: rest => (radixDigits 8 rest).map (fun n => mkRat n 1)
  | '0' :: 'O' :: rest => (radixDigits 8 rest).map (fun n => mkRat n 1)
  | '0' :: 'b' :: rest => (radixDigits 2 rest).map (fun n => mkRat n 1)
  | '0' :: 'B' :: rest => (radixDigits 2 rest).map (fun n => mkRat n 1)
  | cs =>
    let (m, r) := cs.span isAsciiDigit
    if m.isEmpty then none
    else
      match r with
      | [] => some (mkRat (digitsToNat m) 1)
      | 'e' :: es =>
        if es.isEmpty || es.any (fun c => !(isAsciiDigit c)) then none
        else some (mkRat (digitsToNat m * 10 ^ digitsToNat es) 1)
      | 'E' :: es =>
        if es.isEmpty || es.any (fun c => !(isAsciiDigit c)) then none
        else some (mkRat (digitsToNat m * 10 ^ digitsToNat es) 1)
      | _ => none

/-- JS loose equality of a tree value with the number 2, as in the square
root branch: a number compares numerically; a string converts with Number
(see `jsNameToNumber`); a boolean converts to 0 or 1, never 2; an array
converts to its comma-joined string form, which for every tree the parsers
build starts with a non-numeric operator tag, hence NaN. -/
def jsLooseEqNum2 : Ast → Bool
  | .num q => decide (q = 2)
  | .str s =>
    match jsNameToNumber s with
    | some q => decide (q = 2)
    | none => false
  | .bool _ => false
  | .op _ _ => false

/-- The token types that continue the relation loop in both parsers. -/
def relationalTokenTypes : List String :=
  ["=", "NE", "<", ">", "LE", "GE", "IN", "NOTIN", "NI", "NOTNI",
   "SUBSET", "NOTSUBSET", "SUPERSET", "NOTSUPERSET"]

/-- The error used when the fuel bound is exhausted; unreachable for the
fuel amounts supplied by `convert` on the inputs considered in this
development (fuel bounds only the recursion depth). -/
def fuelError : ParseError := { message := "internal fuel exhausted", location := -1 }

namespace textToAst

/-- Constructor options of `textToAst`, with the source defaults. -/
structure Config where
  allowSimplifiedFunctionApplication : Bool := allowSimplifiedFunctionApplicationDefault
  splitSymbols : Bool := splitSymbolsDefault
  unsplitSymbols : List String := unsplitSymbolsDefault
  appliedFunctionSymbols : List String := appliedFunctionSymbolsDefault
  functionSymbols : List String := functionSymbolsDefault
deriving Repr, DecidableEq

/-- `textToAst.advance`: pull the next token from the lexer; an INVALID token
raises the parse error whose text interpolates the (absent) token text. -/
def advanceFromLex (lex : lexer) : Except ParseError PState :=
  let r := lexer.advance text_rules lex
  if r.1.ttype = "INVALID" then
    .error { message := "Invalid symbol \x27" ++ jsUndef r.1.text ++ "\x27",
             location := r.2.location }
  else .ok { lex := r.2, token := r.1 }

/-- `textToAst.advance` acting on a parser state. -/
def advance (st : PState) : Except ParseError PState := advanceFromLex st.lex

/-- The split decision of `baseFactor` for a non-function identifier: split
only when enabled, and not for a multi-character lexical token, a configured
unsplit symbol, a single character, or a name containing a digit. -/
def splitDecision (cfg : Config) (ttype text : String) : Bool :=
  if cfg.splitSymbols then
    if ttype = "VARMULTICHAR" || cfg.unsplitSymbols.contains text ||
       text.toList.length = 1 then false
    else if text.toList.any isAsciiDigit then false
    else true
  else false

/-- Push the characters of a split identifier back onto the lexer input, each
followed by a synthetic space, from the last character to the first. -/
def unputSplit (cs : Chars) (l : lexer) : lexer :=
  cs.reverse.foldl (fun lx c => lexer.unput (lexer.unput lx " ") (String.mk [c])) l

mutual

/-- `statement_list`. -/
def statement_list : Nat → Config → PState → Except ParseError (Ast × PState)
  | 0, _, _ => .error fuelError
  | fuel+1, cfg, st => do
    let (first, st) ← statement fuel cfg st
    let (items, st) ← statementListLoop fuel cfg [first] st
    match items with
    | [x] => .ok (x, st)
    | xs => .ok (.op "list" xs, st)

/-- The comma loop of `statement_list`. -/
def statementListLoop : Nat → Config → List Ast → PState → Except ParseError (List Ast × PState)
  | 0, _, _, _ => .error fuelError
  | fuel+1, cfg, list, st =>
    if st.token.ttype = "," then do
      let st ← advance st
      let (x, st) ← statement fuel cfg st
      statementListLoop fuel cfg (list ++ [x]) st
    else .ok (list, st)

/-- `statement`. -/
def statement : Nat → Config → PState → Except ParseError (Ast × PState)
  | 0, _, _ => .error fuelError
  | fuel+1, cfg, st => do
    let (lhs, st) ← statement2 fuel cfg st
    statementOrLoop fuel cfg lhs st

/-- The OR loop of `statement`. -/
def statementOrLoop : Nat → Config → Ast → PState → Except ParseError (Ast × PState)
  | 0, _, _, _ => .error fuelError
  | fuel+1, cfg, lhs, st =>
    if st.token.ttype = "OR" then do
      let operation := jsToLower st.token.ttype
      let st ← advance st
      let (rhs, st) ← statement2 fuel cfg st
      statementOrLoop fuel cfg (.op operation [lhs, rhs]) st
    else .ok (lhs, st)

/-- `statement2` (AND split out to bind tighter than OR). -/
def statement2 : Nat → Config → PState → Except ParseError (Ast × PState)
  | 0, _, _ => .error fuelError
  | fuel+1, cfg, st => do
    let (lhs, st) ← relation fuel cfg st
    statementAndLoop fuel cfg lhs st

/-- The AND loop of `statement2`. -/
def statementAndLoop : Nat → Config → Ast → PState → Except ParseError (Ast × PState)
  | 0, _, _, _ => .error fuelError
  | fuel+1, cfg, lhs, st =>
    if st.token.ttype = "AND" then do
      let operation := jsToLower st.token.ttype
      let st ← advance st
      let (rhs, st) ← relation fuel cfg st
      statementAndLoop fuel cfg (.op operation [lhs, rhs]) st
    else .ok (lhs, st)

/-- `relation`. -/
def relation : Nat → Config → PState → Except ParseError (Ast × PState)
  | 0, _, _ => .error fuelError
  | fuel+1, cfg, st =>
    if st.token.ttype = "NOT" || st.token.ttype = "!" then
      match advance st with
      | .error e => .error e
      | .ok st =>
        match relation fuel cfg st with
        | .error e => .error e
        | .ok (r, st) => .ok (.op "not" [r], st)
    else
      match expression fuel cfg st with
      | .error e => .error e
      | .ok (lhs, st) => relationLoop fuel cfg lhs st

/-- The relational-operator loop of `relation`, including the chaining of
same-direction inequality runs and of equality runs. -/
def relationLoop : Nat → Config → Ast → PState → Except ParseError (Ast × PState)
  | 0, _, _, _ => .error fuelError
  | fuel+1, cfg, lhs, st =>
    if relationalTokenTypes.contains st.token.ttype then
      let operation := jsToLower st.token.ttype
      let inequality_sequence : Int :=
        if st.token.ttype = "<" || st.token.ttype = "LE" then -1
        else if st.token.ttype = ">" || st.token.ttype = "GE" then 1
        else 0
      match advance st with
      | .error e => .error e
      | .ok st =>
        match expression fuel cfg st with
        | .error e => .error e
        | .ok (rhs, st) =>
          if inequality_sequence = -1 then
            if st.token.ttype = "<" || st.token.ttype = "LE" then
              match ltsChainLoop fuel cfg [lhs, rhs] [.bool (operation = "<")] st with
              | .error e => .error e
              | .ok (args, strict, st) =>
                relationLoop fuel cfg (.op "lts" [.op "tuple" args, .op "tuple" strict]) st
            else
              relationLoop fuel cfg (.op operation [lhs, rhs]) st
          else if inequality_sequence = 1 then
            if st.token.ttype = ">" || st.token.ttype = "GE" then
              match gtsChainLoop fuel cfg [lhs, rhs] [.bool (operation = ">")] st with
              | .error e => .error e
              | .ok (args, strict, st) =>
                relationLoop fuel cfg (.op "gts" [.op "tuple" args, .op "tuple" strict]) st
            else
              relationLoop fuel cfg (.op operation [lhs, rhs]) st
          else if operation = "=" then
            match eqChainLoop fuel cfg [lhs, rhs] st with
            | .error e => .error e
            | .ok (ops, st) => relationLoop fuel cfg (.op "=" ops) st
          else
            relationLoop fuel cfg (.op operation [lhs, rhs]) st
    else .ok (lhs, st)

/-- The run of multiple less-than or less-or-equal operators. -/
def ltsChainLoop : Nat → Config → List Ast → List Ast → PState →
    Except ParseError (List Ast × List Ast × PState)
  | 0, _, _, _, _ => .error fuelError
  | fuel+1, cfg, args, strict, st =>
    if st.token.ttype = "<" || st.token.ttype = "LE" then
      let strict := strict ++ [Ast.bool (st.token.ttype = "<")]
      match advance st with
      | .error e => .error e
      | .ok st =>
        match expression fuel cfg st with
        | .error e => .error e
        | .ok (e, st) => ltsChainLoop fuel cfg (args ++ [e]) strict st
    else .ok (args, strict, st)

/-- The run of multiple greater-than or greater-or-equal operators. -/
def gtsChainLoop : Nat → Config → List Ast → List Ast → PState →
    Except ParseError (List Ast × List Ast × PState)
  | 0, _, _, _, _ => .error fuelError
  | fuel+1, cfg, args, strict, st =>
    if st.token.ttype = ">" || st.token.ttype = "GE" then
      let strict := strict ++ [Ast.bool (st.token.ttype = ">")]
      match advance st with
      | .error e => .error e
      | .ok st =>
        match expression fuel cfg st with
        | .error e => .error e
        | .ok (e, st) => gtsChainLoop fuel cfg (args ++ [e]) strict st
    else .ok (args, strict, st)

/-- The run of multiple equality operators. -/
def eqChainLoop : Nat → Config → List Ast → PState →
    Except ParseError (List Ast × PState)
  | 0, _, _, _ => .error fuelError
  | fuel+1, cfg, ops, st =>
    if st.token.ttype = "=" then
      match advance st with
      | .error e => .error e
      | .ok st =>
        match expression fuel cfg st with
        | .error e => .error e
        | .ok (e, st) => eqChainLoop fuel cfg (ops ++ [e]) st
    else .ok (ops, st)

/-- `expression` (a leading plus is skipped). -/
def expression : Nat → Config → PState → Except ParseError (Ast × PState)
  | 0, _, _ => .error fuelError
  | fuel+1, cfg, st => do
    let st ← (if st.token.ttype = "+" then advance st else .ok st)
    let (lhs, st) ← term fuel cfg st
    expressionLoop fuel cfg lhs st

/-- The additive loop of `expression`; a minus becomes plus of a negated
term. -/
def expressionLoop : Nat → Config → Ast → PState → Except ParseError (Ast × PState)
  | 0, _, _, _ => .error fuelError
  | fuel+1, cfg, lhs, st =>
    if st.token.ttype = "+" || st.token.ttype = "-" || st.token.ttype = "UNION" ||
       st.token.ttype = "INTERSECT" then do
      let negative := st.token.ttype = "-"
      let operation := if negative then "+" else jsToLower st.token.ttype
      let st ← advance st
      let (rhs, st) ← term fuel cfg st
      let rhs := if negative then Ast.op "-" [rhs] else rhs
      expressionLoop fuel cfg (.op operation [lhs, rhs]) st
    else .ok (lhs, st)

/-- `term`. -/
def term : Nat → Config → PState → Except ParseError (Ast × PState)
  | 0, _, _ => .error fuelError
  | fuel+1, cfg, st => do
    let (lhs, st) ← factor fuel cfg st
    termLoop fuel cfg lhs st

/-- The multiplicative loop of `term`, including implicit multiplication by
an adjacent factor. -/
def termLoop : Nat → Config → Ast → PState → Except ParseError (Ast × PState)
  | 0, _, _, _ => .error fuelError
  | fuel+1, cfg, lhs, st =>
    if st.token.ttype = "*" then do
      let st ← advance st
      let (r, st) ← factor fuel cfg st
      termLoop fuel cfg (.op "*" [lhs, r]) st
    else if st.token.ttype = "/" then do
      let st ← advance st
      let (r, st) ← factor fuel cfg st
      termLoop fuel cfg (.op "/" [lhs, r]) st
    else do
      let (rhs, st) ← nonMinusFactor fuel cfg st
      match rhs with
      | some r => termLoop fuel cfg (.op "*" [lhs, r]) st
      | none => .ok (lhs, st)

/-- `factor`. -/
def factor : Nat → Config → PState → Except ParseError (Ast × PState)
  | 0, _, _ => .error fuelError
  | fuel+1, cfg, st =>
    if st.token.ttype = "-" then do
      let st ← advance st
      let (r, st) ← factor fuel cfg st
      .ok (.op "-" [r], st)
    else if st.token.ttype = "|" then do
      let st ← advance st
      let (r, st) ← statement fuel cfg st
      let result := Ast.op "apply" [.str "abs", r]
      if st.token.ttype ≠ "|" then
        .error { message := "Expected |", location := st.lex.location }
      else do
        let st ← advance st
        .ok (result, st)
    else do
      let (r, st) ← nonMinusFactor fuel cfg st
      match r with
      | none =>
        if st.token.ttype = "EOF" then
          .error { message := "Unexpected end of input", location := st.lex.location }
        else
          .error { message := "Invalid location of \x27" ++ jsUndef st.token.text ++ "\x27",
                   location := st.lex.location }
      | some r => .ok (r, st)

/-- `nonMinusFactor`: a base factor with arbitrary trailing factorial and
prime marks and an optional exponent. -/
def nonMinusFactor : Nat → Config → PState → Except ParseError (Option Ast × PState)
  | 0, _, _ => .error fuelError
  | fuel+1, cfg, st => do
    let (r, st) ← baseFactor fuel cfg st
    let (r, st) ←
      if st.token.ttype = "!" || st.token.ttype = "\x27" then
        match r with
        | none =>
          .error { message := "Invalid location of " ++ st.token.ttype,
                   location := st.lex.location }
        | some r0 => do
          let (r1, st) ← postfixLoop fuel cfg r0 st
          .ok (some r1, st)
      else .ok (r, st)
    if st.token.ttype = "^" then
      match r with
      | none => .error { message := "Invalid location of ^", location := st.lex.location }
      | some r0 => do
        let st ← advance st
        let (e, st) ← factor fuel cfg st
        .ok (some (.op "^" [r0, e]), st)
    else .ok (r, st)

/-- The factorial-and-prime loop of `nonMinusFactor`. -/
def postfixLoop : Nat → Config → Ast → PState → Except ParseError (Ast × PState)
  | 0, _, _, _ => .error fuelError
  | fuel+1, cfg, r, st =>
    if st.token.ttype = "!" then do
      let st ← advance st
      postfixLoop fuel cfg (.op "apply" [.str "factorial", r]) st
    else if st.token.ttype = "\x27" then do
      let st ← advance st
      postfixLoop fuel cfg (.op "prime" [r]) st
    else .ok (r, st)

/-- `baseFactor`. -/
def baseFactor : Nat → Config → PState → Except ParseError (Option Ast × PState)
  | 0, _, _ => .error fuelError
  | fuel+1, cfg, st =>
    if st.token.ttype = "NUMBER" then do
      let result := Ast.num (parseFloatQ (jsUndef st.token.text))
      let st ← advance st
      subscriptCheck fuel cfg (some result) st
    else if st.token.ttype = "INFINITY" then do
      let st ← advance st
      subscriptCheck fuel cfg (some (.str "infinity")) st
    else if st.token.ttype = "DERIVATIVE" then do
      let m := derivLetters (jsUndef st.token.text)
      let st ← advance st
      -- the source returns here directly, skipping the subscript check
      .ok (some (.op "derivative_leibniz" [.str m.1, .str m.2]), st)
    else if st.token.ttype = "DERIVATIVEMULT" then do
      let m := derivMultParts (jsUndef st.token.text)
      let st ← advance st
      .ok (some (.op "derivative_leibniz_mult"
        [.num (parseFloatQ m.1), .str m.2.1, .str m.2.2]), st)
    else if st.token.ttype = "VAR" || st.token.ttype = "VARMULTICHAR" then
      let result := jsUndef st.token.text
      if cfg.appliedFunctionSymbols.contains result ||
         cfg.functionSymbols.contains result then do
        let (r, st) ← functionSymbolBranch fuel cfg result st
        subscriptCheck fuel cfg r st
      else
        if splitDecision cfg st.token.ttype result then do
          -- push the characters back, interleaved with spaces, re-lex, and
          -- parse a base factor again (the source returns here directly)
          let lex := unputSplit result.toList st.lex
          let st ← advanceFromLex lex
          baseFactor fuel cfg st
        else do
          let st ← advance st
          subscriptCheck fuel cfg (some (.str result)) st
    else if st.token.ttype = "(" || st.token.ttype = "[" || st.token.ttype = "\x7b" then do
      let (r, st) ← groupBranch fuel cfg st
      subscriptCheck fuel cfg (some r) st
    else
      subscriptCheck fuel cfg none st

/-- The function-name branch of `baseFactor`: optional subscript, primes and
exponent applied to the name, then an explicit parenthesized argument list or
(for applied functions with simplified application allowed) the next factor. -/
def functionSymbolBranch : Nat → Config → String → PState →
    Except ParseError (Option Ast × PState)
  | 0, _, _, _ => .error fuelError
  | fuel+1, cfg, name, st => do
    let must_apply := cfg.appliedFunctionSymbols.contains name
    let resultA := Ast.str (jsToLower name)
    let st ← advance st
    let (resultA, st) ←
      if st.token.ttype = "_" then do
        let st ← advance st
        let (sub, st) ← baseFactor fuel cfg st
        match sub with
        | none =>
          if st.token.ttype = "EOF" then
            .error { message := "Unexpected end of input", location := st.lex.location }
          else
            .error { message := "Invalid location of \x27" ++ jsUndef st.token.text ++ "\x27",
                     location := st.lex.location }
        | some s => .ok (Ast.op "_" [resultA, s], st)
      else .ok (resultA, st)
    let (resultA, st) ← fnPrimeLoop fuel cfg resultA st
    let (resultA, st) ←
      if st.token.ttype = "^" then do
        let st ← advance st
        let (e, st) ← factor fuel cfg st
        .ok (Ast.op "^" [resultA, e], st)
      else .ok (resultA, st)
    if st.token.ttype = "(" then do
      let st ← advance st
      let (parameters, st) ← statement_list fuel cfg st
      if st.token.ttype ≠ ")" then
        .error { message := "Expected )", location := st.lex.location }
      else do
        let st ← advance st
        .ok (some (.op "apply" [resultA, renameListToTuple parameters]), st)
    else
      if must_apply then
        if ¬ cfg.allowSimplifiedFunctionApplication then
          .error { message := "Expected ( after function", location := st.lex.location }
        else do
          let (arg, st) ← factor fuel cfg st
          .ok (some (.op "apply" [resultA, arg]), st)
      else .ok (some resultA, st)

/-- The prime loop on a function name. -/
def fnPrimeLoop : Nat → Config → Ast → PState → Except ParseError (Ast × PState)
  | 0, _, _, _ => .error fuelError
  | fuel+1, cfg, r, st =>
    if st.token.ttype = "\x27" then do
      let st ← advance st
      fnPrimeLoop fuel cfg (.op "prime" [r]) st
    else .ok (r, st)

/-- The bracketed-group branch of `baseFactor`: grouping, tuples, arrays,
sets and half-open intervals. -/
def groupBranch : Nat → Config → PState → Except ParseError (Ast × PState)
  | 0, _, _ => .error fuelError
  | fuel+1, cfg, st => do
    let token_left := st.token.ttype
    let expected_right := if token_left = "(" then ")"
      else if token_left = "[" then "]" else "\x7d"
    let other_right : Option String := if token_left = "(" then some "]"
      else if token_left = "[" then some ")" else none
    let st ← advance st
    let (result, st) ← statement_list fuel cfg st
    let n_elements : Nat := match result with
      | .op "list" args => args.length
      | _ => 1
    if st.token.ttype ≠ expected_right then
      if n_elements ≠ 2 || other_right = none then
        .error { message := "Expected " ++ expected_right, location := st.lex.location }
      else if some st.token.ttype ≠ other_right then
        .error { message := "Expected ) or ]", location := st.lex.location }
      else do
        let args := renameListToTuple result
        let closed := if token_left = "(" then Ast.op "tuple" [.bool false, .bool true]
          else Ast.op "tuple" [.bool true, .bool false]
        let st ← advance st
        .ok (.op "interval" [args, closed], st)
    else do
      let result :=
        if n_elements ≥ 2 then
          match result with
          | .op "list" args =>
            if token_left = "(" then Ast.op "tuple" args
            else if token_left = "[" then Ast.op "array" args
            else Ast.op "set" args
          | r => r
        else if token_left = "\x7b" then setConcat result
        else result
      let st ← advance st
      .ok (result, st)

/-- The trailing-subscript check at the end of `baseFactor`. -/
def subscriptCheck : Nat → Config → Option Ast → PState →
    Except ParseError (Option Ast × PState)
  | 0, _, _, _ => .error fuelError
  | fuel+1, cfg, r, st =>
    if st.token.ttype = "_" then
      match r with
      | none => .error { message := "Invalid location of _", location := st.lex.location }
      | some r0 => do
        let st ← advance st
        let (sub, st) ← baseFactor fuel cfg st
        match sub with
        | none =>
          if st.token.ttype = "EOF" then
            .error { message := "Unexpected end of input", location := st.lex.location }
          else
            .error { message := "Invalid location of \x27" ++ jsUndef st.token.text ++ "\x27",
                     location := st.lex.location }
        | some s => .ok (some (.op "_" [r0, s]), st)
    else .ok (r, st)

end

/-- `textToAst.convert`: set the input, pull the first token, parse a
statement list, require EOF, and flatten. -/
def convert (cfg : Config) (input : String) : Except ParseError Ast := do
  let st ← advanceFromLex { input := input.toList, location := 0 }
  let (result, st) ← statement_list (100 * (input.toList.length + 2)) cfg st
  if st.token.ttype ≠ "EOF" then
    .error { message := "Invalid location of \x27" ++ jsUndef st.token.text ++ "\x27",
             location := st.lex.location }
  else
    .ok (flatten result)

end textToAst

namespace latexToAst

/-- Constructor options of `latexToAst`, with the source defaults. -/
structure Config where
  allowSimplifiedFunctionApplication : Bool := allowSimplifiedFunctionApplicationDefault
  allowedLatexSymbols : List String := allowedLatexSymbolsDefault
  appliedFunctionSymbols : List String := appliedFunctionSymbolsDefault
  functionSymbols : List String := functionSymbolsDefault
deriving Repr, DecidableEq

/-- `latexToAst.advance`: pull the next token; an INVALID token raises the
parse error whose text interpolates the (absent) token text.  The lexer is
constructed as `new lexer(latex_rules, whitespace_rule)`, but the `lexer`
constructor accepts only the rule table, so the whitespace argument is
ignored and `lexer.advance` skips only the fixed whitespace pattern. -/
def advanceFromLex (lex : lexer) : Except ParseError PState :=
  let r := lexer.advance latex_rules lex
  if r.1.ttype = "INVALID" then
    .error { message := "Invalid symbol \x27" ++ jsUndef r.1.text ++ "\x27",
             location := r.2.location }
  else .ok { lex := r.2, token := r.1 }

/-- `latexToAst.advance` acting on a parser state. -/
def advance (st : PState) : Except ParseError PState := advanceFromLex st.lex

mutual

/-- `statement_list`. -/
def statement_list : Nat → Config → PState → Except ParseError (Ast × PState)
  | 0, _, _ => .error fuelError
  | fuel+1, cfg, st => do
    let (first, st) ← statement fuel cfg st
    let (items, st) ← statementListLoop fuel cfg [first] st
    match items with
    | [x] => .ok (x, st)
    | xs => .ok (.op "list" xs, st)

/-- The comma loop of `statement_list`. -/
def statementListLoop : Nat → Config → List Ast → PState → Except ParseError (List Ast × PState)
  | 0, _, _, _ => .error fuelError
  | fuel+1, cfg, list, st =>
    if st.token.ttype = "," then do
      let st ← advance st
      let (x, st) ← statement fuel cfg st
      statementListLoop fuel cfg (list ++ [x]) st
    else .ok (list, st)

/-- `statement`. -/
def statement : Nat → Config → PState → Except ParseError (Ast × PState)
  | 0, _, _ => .error fuelError
  | fuel+1, cfg, st => do
    let (lhs, st) ← statement2 fuel cfg st
    statementOrLoop fuel cfg lhs st

/-- The OR loop of `statement`. -/
def statementOrLoop : Nat → Config → Ast → PState → Except ParseError (Ast × PState)
  | 0, _, _, _ => .error fuelError
  | fuel+1, cfg, lhs, st =>
    if st.token.ttype = "OR" then do
      let operation := jsToLower st.token.ttype
      let st ← advance st
      let (rhs, st) ← statement2 fuel cfg st
      statementOrLoop fuel cfg (.op operation [lhs, rhs]) st
    else .ok (lhs, st)

/-- `statement2`. -/
def statement2 : Nat → Config → PState → Except ParseError (Ast × PState)
  | 0, _, _ => .error fuelError
  | fuel+1, cfg, st => do
    let (lhs, st) ← relation fuel cfg st
    statementAndLoop fuel cfg lhs st

/-- The AND loop of `statement2`. -/
def statementAndLoop : Nat → Config → Ast → PState → Except ParseError (Ast × PState)
  | 0, _, _, _ => .error fuelError
  | fuel+1, cfg, lhs, st =>
    if st.token.ttype = "AND" then do
      let operation := jsToLower st.token.ttype
      let st ← advance st
      let (rhs, st) ← relation fuel cfg st
      statementAndLoop fuel cfg (.op operation [lhs, rhs]) st
    else .ok (lhs, st)

/-- `relation` (the LaTeX grammar has no bang prefix rule in its comment,
but the code checks both NOT and bang exactly as the text flavor). -/
def relation : Nat → Config → PState → Except ParseError (Ast × PState)
  | 0, _, _ => .error fuelError
  | fuel+1, cfg, st =>
    if st.token.ttype = "NOT" || st.token.ttype = "!" then
      match advance st with
      | .error e => .error e
      | .ok st =>
        match relation fuel cfg st with
        | .error e => .error e
        | .ok (r, st) => .ok (.op "not" [r], st)
    else
      match expression fuel cfg st with
      | .error e => .error e
      | .ok (lhs, st) => relationLoop fuel cfg lhs st

/-- The relational-operator loop of `relation`, identical in structure to the
text flavor. -/
def relationLoop : Nat → Config → Ast → PState → Except ParseError (Ast × PState)
  | 0, _, _, _ => .error fuelError
  | fuel+1, cfg, lhs, st =>
    if relationalTokenTypes.contains st.token.ttype then
      let operation := jsToLower st.token.ttype
      let inequality_sequence : Int :=
        if st.token.ttype = "<" || st.token.ttype = "LE" then -1
        else if st.token.ttype = ">" || st.token.ttype = "GE" then 1
        else 0
      match advance st with
      | .error e => .error e
      | .ok st =>
        match expression fuel cfg st with
        | .error e => .error e
        | .ok (rhs, st) =>
          if inequality_sequence = -1 then
            if st.token.ttype = "<" || st.token.ttype = "LE" then
              match ltsChainLoop fuel cfg [lhs, rhs] [.bool (operation = "<")] st with
              | .error e => .error e
              | .ok (args, strict, st) =>
                relationLoop fuel cfg (.op "lts" [.op "tuple" args, .op "tuple" strict]) st
            else
              relationLoop fuel cfg (.op operation [lhs, rhs]) st
          else if inequality_sequence = 1 then
            if st.token.ttype = ">" || st.token.ttype = "GE" then
              match gtsChainLoop fuel cfg [lhs, rhs] [.bool (operation = ">")] st with
              | .error e => .error e
              | .ok (args, strict, st) =>
                relationLoop fuel cfg (.op "gts" [.op "tuple" args, .op "tuple" strict]) st
            else
              relationLoop fuel cfg (.op operation [lhs, rhs]) st
          else if operation = "=" then
            match eqChainLoop fuel cfg [lhs, rhs] st with
            | .error e => .error e
            | .ok (ops, st) => relationLoop fuel cfg (.op "=" ops) st
          else
            relationLoop fuel cfg (.op operation [lhs, rhs]) st
    else .ok (lhs, st)

/-- The run of multiple less-than or less-or-equal operators. -/
def ltsChainLoop : Nat → Config → List Ast → List Ast → PState →
    Except ParseError (List Ast × List Ast × PState)
  | 0, _, _, _, _ => .error fuelError
  | fuel+1, cfg, args, strict, st =>
    if st.token.ttype = "<" || st.token.ttype = "LE" then
      let strict := strict ++ [Ast.bool (st.token.ttype = "<")]
      match advance st with
      | .error e => .error e
      | .ok st =>
        match expression fuel cfg st with
        | .error e => .error e
        | .ok (e, st) => ltsChainLoop fuel cfg (args ++ [e]) strict st
    else .ok (args, strict, st)

/-- The run of multiple greater-than or greater-or-equal operators. -/
def gtsChainLoop : Nat → Config → List Ast → List Ast → PState →
    Except ParseError (List Ast × List Ast × PState)
  | 0, _, _, _, _ => .error fuelError
  | fuel+1, cfg, args, strict, st =>
    if st.token.ttype = ">" || st.token.ttype = "GE" then
      let strict := strict ++ [Ast.bool (st.token.ttype = ">")]
      match advance st with
      | .error e => .error e
      | .ok st =>
        match expression fuel cfg st with
        | .error e => .error e
        | .ok (e, st) => gtsChainLoop fuel cfg (args ++ [e]) strict st
    else .ok (args, strict, st)

/-- The run of multiple equality operators. -/
def eqChainLoop : Nat → Config → List Ast → PState →
    Except ParseError (List Ast × PState)
  | 0, _, _, _ => .error fuelError
  | fuel+1, cfg, ops, st =>
    if st.token.ttype = "=" then
      match advance st with
      | .error e => .error e
      | .ok st =>
        match expression fuel cfg st with
        | .error e => .error e
        | .ok (e, st) => eqChainLoop fuel cfg (ops ++ [e]) st
    else .ok (ops, st)

/-- `expression`. -/
def expression : Nat → Config → PState → Except ParseError (Ast × PState)
  | 0, _, _ => .error fuelError
  | fuel+1, cfg, st => do
    let st ← (if st.token.ttype = "+" then advance st else .ok st)
    let (lhs, st) ← term fuel cfg st
    expressionLoop fuel cfg lhs st

/-- The additive loop of `expression`. -/
def expressionLoop : Nat → Config → Ast → PState → Except ParseError (Ast × PState)
  | 0, _, _, _ => .error fuelError
  | fuel+1, cfg, lhs, st =>
    if st.token.ttype = "+" || st.token.ttype = "-" || st.token.ttype = "UNION" ||
       st.token.ttype = "INTERSECT" then do
      let negative := st.token.ttype = "-"
      let operation := if negative then "+" else jsToLower st.token.ttype
      let st ← advance st
      let (rhs, st) ← term fuel cfg st
      let rhs := if negative then Ast.op "-" [rhs] else rhs
      expressionLoop fuel cfg (.op operation [lhs, rhs]) st
    else .ok (lhs, st)

/-- `term`. -/
def term : Nat → Config → PState → Except ParseError (Ast × PState)
  | 0, _, _ => .error fuelError
  | fuel+1, cfg, st => do
    let (lhs, st) ← factor fuel cfg st
    termLoop fuel cfg lhs st

/-- The multiplicative loop of `term`. -/
def termLoop : Nat → Config → Ast → PState → Except ParseError (Ast × PState)
  | 0, _, _, _ => .error fuelError
  | fuel+1, cfg, lhs, st =>
    if st.token.ttype = "*" then do
      let st ← advance st
      let (r, st) ← factor fuel cfg st
      termLoop fuel cfg (.op "*" [lhs, r]) st
    else if st.token.ttype = "/" then do
      let st ← advance st
      let (r, st) ← factor fuel cfg st
      termLoop fuel cfg (.op "/" [lhs, r]) st
    else do
      let (rhs, st) ← nonMinusFactor fuel cfg st
      match rhs with
      | some r => termLoop fuel cfg (.op "*" [lhs, r]) st
      | none => .ok (lhs, st)

/-- `factor`. -/
def factor : Nat → Config → PState → Except ParseError (Ast × PState)
  | 0, _, _ => .error fuelError
  | fuel+1, cfg, st =>
    if st.token.ttype = "-" then do
      let st ← advance st
      let (r, st) ← factor fuel cfg st
      .ok (.op "-" [r], st)
    else if st.token.ttype = "|" then do
      let st ← advance st
      let (r, st) ← statement fuel cfg st
      let result := Ast.op "apply" [.str "abs", r]
      if st.token.ttype ≠ "|" then
        .error { message := "Expected |", location := st.lex.location }
      else do
        let st ← advance st
        .ok (result, st)
    else do
      let (r, st) ← nonMinusFactor fuel cfg st
      match r with
      | none =>
        if st.token.ttype = "EOF" then
          .error { message := "Unexpected end of input", location := st.lex.location }
        else
          .error { message := "Invalid location of \x27" ++ jsUndef st.token.text ++ "\x27",
                   location := st.lex.location }
      | some r => .ok (r, st)

/-- `nonMinusFactor`. -/
def nonMinusFactor : Nat → Config → PState → Except ParseError (Option Ast × PState)
  | 0, _, _ => .error fuelError
  | fuel+1, cfg, st => do
    let (r, st) ← baseFactor fuel cfg st
    let (r, st) ←
      if st.token.ttype = "!" || st.token.ttype = "\x27" then
        match r with
        | none =>
          .error { message := "Invalid location of " ++ st.token.ttype,
                   location := st.lex.location }
        | some r0 => do
          let (r1, st) ← postfixLoop fuel cfg r0 st
          .ok (some r1, st)
      else .ok (r, st)
    if st.token.ttype = "^" then
      match r with
      | none => .error { message := "Invalid location of ^", location := st.lex.location }
      | some r0 => do
        let st ← advance st
        let (e, st) ← factor fuel cfg st
        .ok (some (.op "^" [r0, e]), st)
    else .ok (r, st)

/-- The factorial-and-prime loop of `nonMinusFactor`. -/
def postfixLoop : Nat → Config → Ast → PState → Except ParseError (Ast × PState)
  | 0, _, _, _ => .error fuelError
  | fuel+1, cfg, r, st =>
    if st.token.ttype = "!" then do
      let st ← advance st
      postfixLoop fuel cfg (.op "apply" [.str "factorial", r]) st
    else if st.token.ttype = "\x27" then do
      let st ← advance st
      postfixLoop fuel cfg (.op "prime" [r]) st
    else .ok (r, st)

/-- `baseFactor` (LaTeX flavor): fractions, environments, square roots,
commands and variables, groups, and a trailing subscript. -/
def baseFactor : Nat → Config → PState → Except ParseError (Option Ast × PState)
  | 0, _, _ => .error fuelError
  | fuel+1, cfg, st =>
    if st.token.ttype = "FRAC" then do
      let st ← advance st
      if st.token.ttype ≠ "\x7b" then
        .error { message := "Expected \x7b", location := st.lex.location }
      else do
        let st ← advance st
        let (numerator, st) ← statement fuel cfg st
        if st.token.ttype ≠ "\x7d" then
          .error { message := "Expected \x7d", location := st.lex.location }
        else do
          let st ← advance st
          if st.token.ttype ≠ "\x7b" then
            .error { message := "Expected \x7b", location := st.lex.location }
          else do
            let st ← advance st
            let (denominator, st) ← statement fuel cfg st
            if st.token.ttype ≠ "\x7d" then
              .error { message := "Expected \x7d", location := st.lex.location }
            else do
              let st ← advance st
              -- the source returns here directly, skipping the subscript check
              .ok (some (.op "/" [numerator, denominator]), st)
    else if st.token.ttype = "BEGINENVIRONMENT" then
      let environment := captureBraceName "\\begin" (jsUndef st.token.text)
      if ["matrix", "pmatrix", "bmatrix"].contains environment then
        match matrixEnv fuel cfg environment st with
        | .error e => .error e
        | .ok (m, st) => .ok (some m, st)
      else
        .error { message := "Unrecognized environment " ++ environment,
                 location := st.lex.location }
    else if st.token.ttype = "NUMBER" then do
      let result := Ast.num (parseFloatQ (jsUndef st.token.text))
      let st ← advance st
      subscriptCheck fuel cfg (some result) st
    else if st.token.ttype = "INFINITY" then do
      let st ← advance st
      subscriptCheck fuel cfg (some (.str "infinity")) st
    else if st.token.ttype = "SQRT" then do
      let st ← advance st
      let (root, st) ←
        if st.token.ttype = "[" then do
          let st ← advance st
          let (parameter, st) ← statement fuel cfg st
          if st.token.ttype ≠ "]" then
            .error { message := "Expected ]", location := st.lex.location }
          else do
            let st ← advance st
            .ok (parameter, st)
        else .ok (Ast.num 2, st)
      if st.token.ttype ≠ "\x7b" then
        .error { message := "Expected \x7b", location := st.lex.location }
      else do
        let st ← advance st
        let (parameter, st) ← statement fuel cfg st
        if st.token.ttype ≠ "\x7d" then
          .error { message := "Expected \x7d", location := st.lex.location }
        else do
          let st ← advance st
          -- JS loose equality root == 2: the numeric root 2 (the initial
          -- value or a parsed number), or a symbol string that Number
          -- converts to 2 (see jsLooseEqNum2)
          let result := if jsLooseEqNum2 root then Ast.op "apply" [.str "sqrt", parameter]
            else Ast.op "^" [parameter, .op "/" [.num 1, root]]
          subscriptCheck fuel cfg (some result) st
    else if st.token.ttype = "VAR" || st.token.ttype = "LATEXCOMMAND" ||
            st.token.ttype = "VARMULTICHAR" then
      let raw := jsUndef st.token.text
      let checked : Except ParseError String :=
        if st.token.ttype = "LATEXCOMMAND" then
          let r := String.mk (raw.toList.drop 1)
          if ¬ (cfg.appliedFunctionSymbols.contains r ||
                cfg.functionSymbols.contains r ||
                cfg.allowedLatexSymbols.contains r) then
            .error { message := "Unrecognized latex command " ++ raw,
                     location := st.lex.location }
          else .ok r
        else if st.token.ttype = "VARMULTICHAR" then
          .ok (captureBraceName "\\var" raw)
        else .ok raw
      match checked with
      | .error e => .error e
      | .ok result =>
        if cfg.appliedFunctionSymbols.contains result ||
           cfg.functionSymbols.contains result then do
          let (r, st) ← functionSymbolBranch fuel cfg result st
          subscriptCheck fuel cfg r st
        else do
          let st ← advance st
          subscriptCheck fuel cfg (some (.str result)) st
    else if st.token.ttype = "(" || st.token.ttype = "[" ||
            st.token.ttype = "\x7b" || st.token.ttype = "LBRACE" then do
      let (r, st) ← groupBranch fuel cfg st
      subscriptCheck fuel cfg (some r) st
    else
      subscriptCheck fuel cfg none st

/-- The environment branch of `baseFactor` for matrix, pmatrix and bmatrix:
collect ampersand-separated entries in linebreak-separated rows, treat a
doubled separator as a zero entry, then build the matrix node, padding each
row on the right with zeros up to the longest row. -/
def matrixEnv : Nat → Config → String → PState → Except ParseError (Ast × PState)
  | 0, _, _, _ => .error fuelError
  | fuel+1, cfg, environment, st =>
    let last_token := st.token.ttype
    match advance st with
    | .error e => .error e
    | .ok st =>
      match matrixLoop fuel cfg [] [] 0 0 0 last_token st with
      | .error e => .error e
      | .ok (all_rows, row, n_this_row, n_rows, n_cols, last_token, st) =>
        let environment2 := captureBraceName "\\end" (jsUndef st.token.text)
        if environment2 ≠ environment then
          .error { message := "Expected \\end\x7b" ++ environment ++ "\x7d",
                   location := st.lex.location }
        else
          let pad := last_token = "&"
          let row := if pad then row ++ [Ast.num 0] else row
          let n_this_row := if pad then n_this_row + 1 else n_this_row
          let all_rows := all_rows ++ [row]
          let n_cols := if n_this_row > n_cols then n_this_row else n_cols
          let n_rows := n_rows + 1
          match advance st with
          | .error e => .error e
          | .ok st =>
            let body := Ast.op "tuple" (all_rows.map (fun r =>
              Ast.op "tuple" (r ++ List.replicate (n_cols - r.length) (Ast.num 0))))
            .ok (.op "matrix" [.op "tuple" [.num n_rows, .num n_cols], body], st)

/-- The collection loop of `matrixEnv`, running until the end-environment
token.  The source guards the entry branch by a condition that ends in the
(always truthy) string constant BEGINENVIRONMENT, so the branch always
parses a statement and its error arm is dead code. -/
def matrixLoop : Nat → Config → List (List Ast) → List Ast → Nat → Nat → Nat →
    String → PState →
    Except ParseError (List (List Ast) × List Ast × Nat × Nat × Nat × String × PState)
  | 0, _, _, _, _, _, _, _, _ => .error fuelError
  | fuel+1, cfg, all_rows, row, n_this_row, n_rows, n_cols, last_token, st =>
    if st.token.ttype ≠ "ENDENVIRONMENT" then
      if st.token.ttype = "&" then
        let pad := last_token = "&" || last_token = "LINEBREAK"
        let row := if pad then row ++ [Ast.num 0] else row
        let n_this_row := if pad then n_this_row + 1 else n_this_row
        match advance st with
        | .error e => .error e
        | .ok st => matrixLoop fuel cfg all_rows row n_this_row n_rows n_cols "&" st
      else if st.token.ttype = "LINEBREAK" then
        let pad := last_token = "&" || last_token = "LINEBREAK"
        let row := if pad then row ++ [Ast.num 0] else row
        let n_this_row := if pad then n_this_row + 1 else n_this_row
        let all_rows := all_rows ++ [row]
        let n_cols := if n_this_row > n_cols then n_this_row else n_cols
        let n_rows := n_rows + 1
        match advance st with
        | .error e => .error e
        | .ok st => matrixLoop fuel cfg all_rows [] 0 n_rows n_cols "LINEBREAK" st
      else
        match statement fuel cfg st with
        | .error e => .error e
        | .ok (x, st) =>
          matrixLoop fuel cfg all_rows (row ++ [x]) (n_this_row + 1) n_rows n_cols " " st
    else .ok (all_rows, row, n_this_row, n_rows, n_cols, last_token, st)

/-- The function-name branch of `baseFactor` (LaTeX flavor): like the text
flavor but the argument list may be wrapped in parentheses or braces. -/
def functionSymbolBranch : Nat → Config → String → PState →
    Except ParseError (Option Ast × PState)
  | 0, _, _, _ => .error fuelError
  | fuel+1, cfg, name, st => do
    let must_apply := cfg.appliedFunctionSymbols.contains name
    let resultA := Ast.str (jsToLower name)
    let st ← advance st
    let (resultA, st) ←
      if st.token.ttype = "_" then do
        let st ← advance st
        let (sub, st) ← baseFactor fuel cfg st
        match sub with
        | none =>
          if st.token.ttype = "EOF" then
            .error { message := "Unexpected end of input", location := st.lex.location }
          else
            .error { message := "Invalid location of \x27" ++ jsUndef st.token.text ++ "\x27",
                     location := st.lex.location }
        | some s => .ok (Ast.op "_" [resultA, s], st)
      else .ok (resultA, st)
    let (resultA, st) ← fnPrimeLoop fuel cfg resultA st
    let (resultA, st) ←
      if st.token.ttype = "^" then do
        let st ← advance st
        let (e, st) ← factor fuel cfg st
        .ok (Ast.op "^" [resultA, e], st)
      else .ok (resultA, st)
    if st.token.ttype = "\x7b" || st.token.ttype = "(" then do
      let expected_right := if st.token.ttype = "\x7b" then "\x7d" else ")"
      let st ← advance st
      let (parameters, st) ← statement_list fuel cfg st
      if st.token.ttype ≠ expected_right then
        .error { message := "Expected " ++ expected_right, location := st.lex.location }
      else do
        let st ← advance st
        .ok (some (.op "apply" [resultA, renameListToTuple parameters]), st)
    else
      if must_apply then
        if ¬ cfg.allowSimplifiedFunctionApplication then
          .error { message := "Expected ( after function", location := st.lex.location }
        else do
          let (arg, st) ← factor fuel cfg st
          .ok (some (.op "apply" [resultA, arg]), st)
      else .ok (some resultA, st)

/-- The prime loop on a function name. -/
def fnPrimeLoop : Nat → Config → Ast → PState → Except ParseError (Ast × PState)
  | 0, _, _, _ => .error fuelError
  | fuel+1, cfg, r, st =>
    if st.token.ttype = "\x27" then do
      let st ← advance st
      fnPrimeLoop fuel cfg (.op "prime" [r]) st
    else .ok (r, st)

/-- The bracketed-group branch of `baseFactor` (LaTeX flavor): parentheses
and plain braces make tuples of two or more elements, square brackets make
arrays, and the escaped-brace LBRACE group makes sets (including the
singleton set). -/
def groupBranch : Nat → Config → PState → Except ParseError (Ast × PState)
  | 0, _, _ => .error fuelError
  | fuel+1, cfg, st => do
    let token_left := st.token.ttype
    let expected_right := if token_left = "(" then ")"
      else if token_left = "[" then "]"
      else if token_left = "\x7b" then "\x7d"
      else "RBRACE"
    let other_right : Option String := if token_left = "(" then some "]"
      else if token_left = "[" then some ")" else none
    let st ← advance st
    let (result, st) ← statement_list fuel cfg st
    let n_elements : Nat := match result with
      | .op "list" args => args.length
      | _ => 1
    if st.token.ttype ≠ expected_right then
      if n_elements ≠ 2 || other_right = none then
        .error { message := "Expected " ++ expected_right, location := st.lex.location }
      else if some st.token.ttype ≠ other_right then
        .error { message := "Expected ) or ]", location := st.lex.location }
      else do
        let args := renameListToTuple result
        let closed := if token_left = "(" then Ast.op "tuple" [.bool false, .bool true]
          else Ast.op "tuple" [.bool true, .bool false]
        let st ← advance st
        .ok (.op "interval" [args, closed], st)
    else do
      let result :=
        if n_elements ≥ 2 then
          match result with
          | .op "list" args =>
            if token_left = "(" || token_left = "\x7b" then Ast.op "tuple" args
            else if token_left = "[" then Ast.op "array" args
            else Ast.op "set" args
          | r => r
        else if token_left = "LBRACE" then setConcat result
        else result
      let st ← advance st
      .ok (result, st)

/-- The trailing-subscript check at the end of `baseFactor`. -/
def subscriptCheck : Nat → Config → Option Ast → PState →
    Except ParseError (Option Ast × PState)
  | 0, _, _, _ => .error fuelError
  | fuel+1, cfg, r, st =>
    if st.token.ttype = "_" then
      match r with
      | none => .error { message := "Invalid location of _", location := st.lex.location }
      | some r0 => do
        let st ← advance st
        let (sub, st) ← baseFactor fuel cfg st
        match sub with
        | none =>
          if st.token.ttype = "EOF" then
            .error { message := "Unexpected end of input", location := st.lex.location }
          else
            .error { message := "Invalid location of \x27" ++ jsUndef st.token.text ++ "\x27",
                     location := st.lex.location }
        | some s => .ok (some (.op "_" [r0, s]), st)
    else .ok (r, st)

end

/-- `latexToAst.convert`. -/
def convert (cfg : Config) (input : String) : Except ParseError Ast := do
  let st ← advanceFromLex { input := input.toList, location := 0 }
  let (result, st) ← statement_list (100 * (input.toList.length + 2)) cfg st
  if st.token.ttype ≠ "EOF" then
    .error { message := "Invalid location of \x27" ++ jsUndef st.token.text ++ "\x27",
             location := st.lex.location }
  else
    .ok (flatten result)

end latexToAst

namespace astToText

/-- Default for Unicode output (src/ast-to-text.js). -/
def output_unicodeDefault : Bool := true

/-- Constructor options of `astToText`. -/
structure Config where
  output_unicode : Bool := output_unicodeDefault
deriving Repr, DecidableEq

/-- JS read of `operands[i]` inside an operator rendering function: a missing
element stringifies as undefined. -/
def jsGet (l : List String) (i : Nat) : String := (l[i]?).getD "undefined"

/-- The `unicode_operators` rendering table. -/
def unicode_operators (op : String) : Option (List String → String) :=
  match op with
  | "+" => some (fun os => String.intercalate " " os)
  | "-" => some (fun os => "- " ++ jsGet os 0)
  | "*" => some (fun os => String.intercalate " " os)
  | "/" => some (fun os => jsGet os 0 ++ "/" ++ jsGet os 1)
  | "_" => some (fun os => jsGet os 0 ++ "_" ++ jsGet os 1)
  | "^" => some (fun os => jsGet os 0 ++ "^" ++ jsGet os 1)
  | "prime" => some (fun os => jsGet os 0 ++ "\x27")
  | "tuple" => some (fun os => "( " ++ String.intercalate ", " os ++ " )")
  | "array" => some (fun os => "[ " ++ String.intercalate ", " os ++ " ]")
  | "list" => some (fun os => String.intercalate ", " os)
  | "set" => some (fun os => "\x7b " ++ String.intercalate ", " os ++ " \x7d")
  | "vector" => some (fun os => "( " ++ String.intercalate ", " os ++ " )")
  | "interval" => some (fun os => "( " ++ String.intercalate ", " os ++ " )")
  | "and" => some (fun os => String.intercalate " and " os)
  | "or" => some (fun os => String.intercalate " or " os)
  | "not" => some (fun os => "not " ++ jsGet os 0)
  | "=" => some (fun os => String.intercalate " = " os)
  | "<" => some (fun os => String.intercalate " < " os)
  | ">" => some (fun os => String.intercalate " > " os)
  | "lts" => some (fun os => String.intercalate " < " os)
  | "gts" => some (fun os => String.intercalate " > " os)
  | "le" => some (fun os => String.intercalate " ≤ " os)
  | "ge" => some (fun os => String.intercalate " ≥ " os)
  | "ne" => some (fun os => String.intercalate " ≠ " os)
  | "in" => some (fun os => jsGet os 0 ++ " ∈ " ++ jsGet os 1)
  | "notin" => some (fun os => jsGet os 0 ++ " ∉ " ++ jsGet os 1)
  | "ni" => some (fun os => jsGet os 0 ++ " ∋ " ++ jsGet os 1)
  | "notni" => some (fun os => jsGet os 0 ++ " ∌ " ++ jsGet os 1)
  | "subset" => some (fun os => jsGet os 0 ++ " ⊂ " ++ jsGet os 1)
  | "notsubset" => some (fun os => jsGet os 0 ++ " ⊄ " ++ jsGet os 1)
  | "superset" => some (fun os => jsGet os 0 ++ " ⊃ " ++ jsGet os 1)
  | "notsuperset" => some (fun os => jsGet os 0 ++ " ⊅ " ++ jsGet os 1)
  | "union" => some (fun os => String.intercalate " ∪ " os)
  | "intersect" => some (fun os => String.intercalate " ∩ " os)
  | _ => none

/-- The `nonunicode_operators` rendering table. -/
def nonunicode_operators (op : String) : Option (List String → String) :=
  match op with
  | "+" => some (fun os => String.intercalate " " os)
  | "-" => some (fun os => "- " ++ jsGet os 0)
  | "*" => some (fun os => String.intercalate " " os)
  | "/" => some (fun os => jsGet os 0 ++ "/" ++ jsGet os 1)
  | "_" => some (fun os => jsGet os 0 ++ "_" ++ jsGet os 1)
  | "^" => some (fun os => jsGet os 0 ++ "^" ++ jsGet os 1)
  | "prime" => some (fun os => jsGet os 0 ++ "\x27")
  | "tuple" => some (fun os => "( " ++ String.intercalate ", " os ++ " )")
  | "array" => some (fun os => "[ " ++ String.intercalate ", " os ++ " ]")
  | "list" => some (fun os => String.intercalate ", " os)
  | "set" => some (fun os => "\x7b " ++ String.intercalate ", " os ++ " \x7d")
  | "vector" => some (fun os => "( " ++ String.intercalate ", " os ++ " )")
  | "interval" => some (fun os => "( " ++ String.intercalate ", " os ++ " )")
  | "and" => some (fun os => String.intercalate " and " os)
  | "or" => some (fun os => String.intercalate " or " os)
  | "not" => some (fun os => "not " ++ jsGet os 0)
  | "=" => some (fun os => String.intercalate " = " os)
  | "<" => some (fun os => String.intercalate " < " os)
  | ">" => some (fun os => String.intercalate " > " os)
  | "lts" => some (fun os => String.intercalate " < " os)
  | "gts" => some (fun os => String.intercalate " > " os)
  | "le" => some (fun os => String.intercalate " <= " os)
  | "ge" => some (fun os => String.intercalate " >= " os)
  | "ne" => some (fun os => String.intercalate " ne " os)
  | "in" => some (fun os => jsGet os 0 ++ " elementof " ++ jsGet os 1)
  | "notin" => some (fun os => jsGet os 0 ++ " notelementof " ++ jsGet os 1)
  | "ni" => some (fun os => jsGet os 0 ++ " containselement " ++ jsGet os 1)
  | "notni" => some (fun os => jsGet os 0 ++ " notcontainselement " ++ jsGet os 1)
  | "subset" => some (fun os => jsGet os 0 ++ " subset " ++ jsGet os 1)
  | "notsubset" => some (fun os => jsGet os 0 ++ " notsubset " ++ jsGet os 1)
  | "superset" => some (fun os => jsGet os 0 ++ " superset " ++ jsGet os 1)
  | "notsuperset" => some (fun os => jsGet os 0 ++ " notsuperset " ++ jsGet os 1)
  | "union" => some (fun os => String.intercalate " union " os)
  | "intersect" => some (fun os => String.intercalate " intersect " os)
  | _ => none

/-- The table selected by the constructor from the Unicode option. -/
def operators (cfg : Config) : String → Option (List String → String) :=
  if cfg.output_unicode then unicode_operators else nonunicode_operators

/-- Apply a rendering-table entry; callers have already checked membership,
so the none case is unreachable. -/
def applyOperator (cfg : Config) (op : String) (os : List String) : String :=
  match operators cfg op with
  | some f => f os
  | none => ""

/-- The JS test for a space anywhere in the rendered string. -/
def containsSpace (s : String) : Bool := s.toList.any (fun c => c = ' ')

/-- The JS test for a string wrapped in parentheses: starts with an opening
parenthesis, ends with a closing one, and the dot of the pattern excludes
newlines (no rendered string contains one). -/
def wrappedInParens (s : String) : Bool :=
  match s.toList with
  | '(' :: (c :: cs) =>
    ((c :: cs).getLast? = some ')') && !(((c :: cs).dropLast).any (fun d => d = '\n'))
  | _ => false

/-- JS truthiness of a possibly absent tree value (used on the strictness
and closedness entries). -/
def jsTruthy : Option Ast → Bool
  | some (.bool b) => b
  | some (.num q) => decide (q ≠ 0)
  | some (.str s) => decide (s ≠ "")
  | some (.op _ _) => true
  | none => false

/-- JS read of `operands[i]` as a tree.  The trees printed in this
development always supply the operands the tag requires; a missing operand
is rendered as the undefined symbol. -/
def jsIdxAst (l : List Ast) (i : Nat) : Ast := (l[i]?).getD (.str "undefined")

/-- Strip prime wrappers (the while loop over `remove_primes`). -/
def stripPrimes : Ast → Ast
  | .op "prime" (x :: _) => stripPrimes x
  | a => a

/-- Strip prime wrappers, counting them. -/
def stripCount : Ast → Ast × Nat
  | .op "prime" (x :: _) => let r := stripCount x; (r.1, r.2 + 1)
  | a => (a, 0)

/-- The `symbolConversions` table of `symbolConvert`. -/
def symbolConversions : List (String × String) :=
  [("infinity", "∞"), ("alpha", "α"), ("beta", "β"), ("Gamma", "Γ"),
   ("gamma", "γ"), ("Delta", "Δ"), ("delta", "δ"), ("epsilon", "ε"),
   ("zeta", "ζ"), ("eta", "η"), ("Theta", "ϴ"), ("theta", "θ"),
   ("iota", "ι"), ("kappa", "κ"), ("Lambda", "Λ"), ("lambda", "λ"),
   ("mu", "μ"), ("nu", "ν"), ("Xi", "Ξ"), ("xi", "ξ"), ("Pi", "Π"),
   ("pi", "π"), ("rho", "ρ"), ("Sigma", "Σ"), ("sigma", "σ"),
   ("tau", "τ"), ("Upsilon", "Υ"), ("upsilon", "υ"), ("Phi", "Φ"),
   ("phi", "ϕ"), ("Psi", "Ψ"), ("psi", "ψ"), ("Omega", "Ω"),
   ("omega", "ω")]

/-- `symbolConvert`: beautify a symbol when Unicode output is on. -/
def symbolConvert (cfg : Config) (symbol : String) : String :=
  match symbolConversions.find? (fun p => p.1 = symbol) with
  | some p => if cfg.output_unicode then p.2 else symbol
  | none => symbol

/-- Number of times `p` divides `n` (fueled; ample for the denominators
produced by `parseFloatQ`). -/
def countFactor (p : Nat) : Nat → Nat → Nat
  | 0, _ => 0
  | fuel+1, n => if n ≠ 0 && n % p = 0 then countFactor p fuel (n / p) + 1 else 0

/-- JS number-to-string conversion, faithful on the values the parsers
produce in this development: integers print without a decimal point, and
other finite-decimal rationals print in plain positional notation (the JS
exponent-notation regimes beyond 1e21 or below 1e-7 are not reached). -/
def qToJsString (q : ℚ) : String :=
  if q.den = 1 then toString q.num
  else
    let a := countFactor 2 64 q.den
    let b := countFactor 5 64 q.den
    let k := max a b
    if q.den = 2 ^ a * 5 ^ b then
      let scaled := q.num.natAbs * ((10 ^ k) / q.den)
      let ds := toString scaled
      let ds := String.mk (List.replicate (k + 1 - ds.toList.length) '0') ++ ds
      let n := ds.toList.length
      (if q.num < 0 then "-" else "") ++ String.mk (ds.toList.take (n - k)) ++
        "." ++ String.mk (ds.toList.drop (n - k))
    else toString q.num ++ "/" ++ toString q.den

mutual

/-- `astToText.statement`. -/
def statement : Nat → Config → Ast → Except String String
  | 0, _, _ => .error "fuel"
  | fuel+1, cfg, tree =>
    match tree with
    | .str s => single_statement fuel cfg (.str s)
    | .num q => single_statement fuel cfg (.num q)
    | .bool _ =>
      -- JS calls tree.slice(1) on the non-array value and throws a TypeError
      .error "tree.slice is not a function"
    | .op operator operands =>
      if (operators cfg operator).isNone && operator ≠ "apply" then
        .error ("Badly formed ast: operator " ++ operator ++ " not recognized.")
      else if operator = "and" || operator = "or" then do
        let parts ← parenthesizedMap fuel cfg operands
        .ok (applyOperator cfg operator parts)
      else single_statement fuel cfg (.op operator operands)

/-- The operand rendering shared by the and, or and not branches: a
single statement, parenthesized unless it is a single space-free quantity or
already wrapped. -/
def parenthesizedMap : Nat → Config → List Ast → Except String (List String)
  | 0, _, _ => .error "fuel"
  | _+1, _, [] => .ok []
  | fuel+1, cfg, v :: vs => do
    let r ← single_statement fuel cfg v
    let r := if containsSpace r && !(wrappedInParens r) then "(" ++ r ++ ")" else r
    let rest ← parenthesizedMap fuel cfg vs
    .ok (r :: rest)

/-- `astToText.single_statement`. -/
def single_statement : Nat → Config → Ast → Except String String
  | 0, _, _ => .error "fuel"
  | fuel+1, cfg, tree =>
    match tree with
    | .str s => expression fuel cfg (.str s)
    | .num q => expression fuel cfg (.num q)
    | .bool _ => .error "tree.slice is not a function"
    | .op operator operands =>
      if operator = "not" then do
        let parts ← parenthesizedMap fuel cfg operands
        .ok (applyOperator cfg operator parts)
      else if ["=", "ne", "<", ">", "le", "ge", "in", "notin", "ni", "notni",
               "subset", "notsubset", "superset", "notsuperset"].contains operator then do
        let parts ← expressionMap fuel cfg operands
        .ok (applyOperator cfg operator parts)
      else if operator = "lts" || operator = "gts" then
        match operands with
        | (.op "tuple" argsL) :: (.op "tuple" strictL) :: _ =>
          (match argsL with
           | a0 :: rest => do
             let r ← expression fuel cfg a0
             chainRender fuel cfg operator rest strictL r
           | [] => .error "Badly formed ast")
        | _ => .error "Badly formed ast"
      else expression fuel cfg (.op operator operands)

/-- The rendering loop for chained relations: alternate a strictness-chosen
separator and the next operand. -/
def chainRender : Nat → Config → String → List Ast → List Ast → String →
    Except String String
  | 0, _, _, _, _, _ => .error "fuel"
  | _+1, _, _, [], _, acc => .ok acc
  | fuel+1, cfg, operator, a :: rest, strict, acc => do
    let sep :=
      if jsTruthy strict.head? then
        (if operator = "lts" then " < " else " > ")
      else if operator = "lts" then
        (if cfg.output_unicode then " ≤ " else " <= ")
      else
        (if cfg.output_unicode then " ≥ " else " >= ")
    let e ← expression fuel cfg a
    chainRender fuel cfg operator rest (strict.drop 1) (acc ++ sep ++ e)

/-- Render each operand as an expression (the relational branch). -/
def expressionMap : Nat → Config → List Ast → Except String (List String)
  | 0, _, _ => .error "fuel"
  | _+1, _, [] => .ok []
  | fuel+1, cfg, v :: vs => do
    let r ← expression fuel cfg v
    let rest ← expressionMap fuel cfg vs
    .ok (r :: rest)

/-- `astToText.expression`. -/
def expression : Nat → Config → Ast → Except String String
  | 0, _, _ => .error "fuel"
  | fuel+1, cfg, tree =>
    match tree with
    | .op operator operands =>
      if operator = "+" then do
        let parts ← plusMap fuel cfg true operands
        .ok (applyOperator cfg "+" parts)
      else if operator = "union" || operator = "intersect" then do
        let parts ← termMap fuel cfg operands
        .ok (applyOperator cfg operator parts)
      else term fuel cfg (.op operator operands)
    | t => term fuel cfg t

/-- Operands of a sum: the first is a term, later ones get a leading plus
unless already negated. -/
def plusMap : Nat → Config → Bool → List Ast → Except String (List String)
  | 0, _, _, _ => .error "fuel"
  | _+1, _, _, [] => .ok []
  | fuel+1, cfg, first, v :: vs => do
    let r ← if first then term fuel cfg v else termWithPlusIfNotNegated fuel cfg v
    let rest ← plusMap fuel cfg false vs
    .ok (r :: rest)

/-- Render each operand as a term. -/
def termMap : Nat → Config → List Ast → Except String (List String)
  | 0, _, _ => .error "fuel"
  | _+1, _, [] => .ok []
  | fuel+1, cfg, v :: vs => do
    let r ← term fuel cfg v
    let rest ← termMap fuel cfg vs
    .ok (r :: rest)

/-- `astToText.term`. -/
def term : Nat → Config → Ast → Except String String
  | 0, _, _ => .error "fuel"
  | fuel+1, cfg, tree =>
    match tree with
    | .op operator operands =>
      if operator = "-" then do
        let parts ← termMap fuel cfg operands
        .ok (applyOperator cfg "-" parts)
      else if operator = "*" then do
        let parts ← timesMap fuel cfg true operands
        .ok (applyOperator cfg "*" parts)
      else if operator = "/" then do
        let parts ← factorMap fuel cfg operands
        .ok (applyOperator cfg "/" parts)
      else factor fuel cfg (.op operator operands)
    | t => factor fuel cfg t

/-- Operands of a product: later operands are parenthesized when negated and
preceded by an explicit times sign when they start with a digit. -/
def timesMap : Nat → Config → Bool → List Ast → Except String (List String)
  | 0, _, _, _ => .error "fuel"
  | _+1, _, _, [] => .ok []
  | fuel+1, cfg, first, v :: vs => do
    let r ←
      if first then factor fuel cfg v
      else do
        let r ← factorWithParenthesesIfNegated fuel cfg v
        if (match r.toList with | c :: _ => isAsciiDigit c | [] => false) then
          .ok ("* " ++ r)
        else .ok r
    let rest ← timesMap fuel cfg false vs
    .ok (r :: rest)

/-- Render each operand as a factor. -/
def factorMap : Nat → Config → List Ast → Except String (List String)
  | 0, _, _ => .error "fuel"
  | _+1, _, [] => .ok []
  | fuel+1, cfg, v :: vs => do
    let r ← factor fuel cfg v
    let rest ← factorMap fuel cfg vs
    .ok (r :: rest)

/-- Operands of a subscript: parenthesized unless simple. -/
def subMap : Nat → Config → List Ast → Except String (List String)
  | 0, _, _ => .error "fuel"
  | _+1, _, [] => .ok []
  | fuel+1, cfg, v :: vs => do
    let r ← factor fuel cfg v
    let simple ← simple_factor_or_function_or_parens fuel cfg v
    let r := if simple then r else "(" ++ r ++ ")"
    let rest ← subMap fuel cfg vs
    .ok (r :: rest)

/-- Render each operand as a statement (collection tags). -/
def statementMap : Nat → Config → List Ast → Except String (List String)
  | 0, _, _ => .error "fuel"
  | _+1, _, [] => .ok []
  | fuel+1, cfg, v :: vs => do
    let r ← statement fuel cfg v
    let rest ← statementMap fuel cfg vs
    .ok (r :: rest)

/-- `astToText.factor`. -/
def factor : Nat → Config → Ast → Except String String
  | 0, _, _ => .error "fuel"
  | fuel+1, cfg, tree =>
    match tree with
    | .str s => .ok (symbolConvert cfg s)
    | .num q => .ok (qToJsString q)
    | .bool b => do
      let s ← statement fuel cfg (.bool b)
      .ok ("(" ++ s ++ ")")
    | .op operator operands =>
      if operator = "^" then do
        let operand0 ← factor fuel cfg (jsIdxAst operands 0)
        let remove_primes := stripPrimes (jsIdxAst operands 0)
        let simple0 ← simple_factor_or_function_or_parens fuel cfg remove_primes
        let cond0 := simple0 ||
          (match remove_primes with
           | .op "_" (x :: _) => (match x with | .str _ => true | _ => false)
           | _ => false)
        let operand0 := if cond0 then operand0 else "(" ++ operand0 ++ ")"
        let operand1 ← factor fuel cfg (jsIdxAst operands 1)
        let simple1 ← simple_factor_or_function_or_parens fuel cfg (jsIdxAst operands 1)
        let operand1 := if simple1 then operand1 else "(" ++ operand1 ++ ")"
        .ok (operand0 ++ "^" ++ operand1)
      else if operator = "_" then do
        let parts ← subMap fuel cfg operands
        .ok (applyOperator cfg "_" parts)
      else if operator = "prime" then do
        let sc := stripCount (jsIdxAst operands 0)
        let result ← factor fuel cfg sc.1
        let simple ← simple_factor_or_function_or_parens fuel cfg sc.1
        let cond := simple ||
          (match sc.1 with
           | .op "_" (x :: _) => (match x with | .str _ => true | _ => false)
           | _ => false)
        let result := if cond then result else "(" ++ result ++ ")"
        .ok (result ++ String.mk (List.replicate (sc.2 + 1) '\x27'))
      else if operator = "-" then do
        let parts ← factorMap fuel cfg operands
        .ok (applyOperator cfg "-" parts)
      else if operator = "tuple" || operator = "array" || operator = "list" ||
              operator = "set" || operator = "vector" then do
        let parts ← statementMap fuel cfg operands
        .ok (applyOperator cfg operator parts)
      else if operator = "interval" then
        match operands with
        | (.op "tuple" argsL) :: (.op "tuple" closedL) :: _ => do
          let s1 ← statement fuel cfg (jsIdxAst argsL 0)
          let s2 ← statement fuel cfg (jsIdxAst argsL 1)
          let result := s1 ++ ", " ++ s2
          let result := (if jsTruthy closedL.head? then "[ " else "( ") ++ result
          let result := result ++ (if jsTruthy closedL[1]? then " ]" else " )")
          .ok result
        | _ => .error "Badly formed ast"
      else if operator = "apply" then
        if jsIdxAst operands 0 = .str "abs" then do
          let s ← statement fuel cfg (jsIdxAst operands 1)
          .ok ("|" ++ s ++ "|")
        else if jsIdxAst operands 0 = .str "factorial" then do
          let result ← factor fuel cfg (jsIdxAst operands 1)
          let simple ← simple_factor_or_function_or_parens fuel cfg (jsIdxAst operands 1)
          let cond := simple ||
            (match jsIdxAst operands 1 with
             | .op "_" (x :: _) => (match x with | .str _ => true | _ => false)
             | _ => false)
          if cond then .ok (result ++ "!") else .ok ("(" ++ result ++ ")!")
        else do
          let f ← factor fuel cfg (jsIdxAst operands 0)
          let f_args ← statement fuel cfg (jsIdxAst operands 1)
          let f_args :=
            (match jsIdxAst operands 1 with
             | .op "tuple" _ => f_args
             | _ => "(" ++ f_args ++ ")")
          .ok (f ++ f_args)
      else do
        let s ← statement fuel cfg (.op operator operands)
        .ok ("(" ++ s ++ ")")

/-- `simple_factor_or_function_or_parens`. -/
def simple_factor_or_function_or_parens : Nat → Config → Ast → Except String Bool
  | 0, _, _ => .error "fuel"
  | fuel+1, cfg, tree => do
    let result ← factor fuel cfg tree
    .ok (result.toList.length = 1 ||
         (match tree with | .num _ => true | _ => false) ||
         (match tree with | .str _ => true | _ => false) ||
         (match tree with | .op "apply" _ => true | _ => false) ||
         wrappedInParens result)

/-- `factorWithParenthesesIfNegated`. -/
def factorWithParenthesesIfNegated : Nat → Config → Ast → Except String String
  | 0, _, _ => .error "fuel"
  | fuel+1, cfg, tree => do
    let result ← factor fuel cfg tree
    if (match result.toList with | '-' :: _ => true | _ => false) then
      .ok ("(" ++ result ++ ")")
    else .ok result

/-- `termWithPlusIfNotNegated`. -/
def termWithPlusIfNotNegated : Nat → Config → Ast → Except String String
  | 0, _, _ => .error "fuel"
  | fuel+1, cfg, tree => do
    let result ← term fuel cfg tree
    if !(match result.toList with | '-' :: _ => true | _ => false) then
      .ok ("+ " ++ result)
    else .ok result

end

end astToText

mutual
/-- Number of nodes of a tree (used to size the printer fuel). -/
def sizeAst : Ast → Nat
  | .op _ args => 1 + sizeAstList args
  | _ => 1

/-- Number of nodes of a list of trees. -/
def sizeAstList : List Ast → Nat
  | [] => 0
  | a :: as => sizeAst a + sizeAstList as
end

namespace astToText

/-- `astToText.convert`: print a statement, with fuel ample for the tree. -/
def convert (cfg : Config) (tree : Ast) : Except String String :=
  statement (20 * (sizeAst tree + 1)) cfg tree

end astToText

deriving instance DecidableEq for Except

/-- Does a tree have the rectangular matrix shape: a matrix node carrying a
2-tuple of row and column counts and a body that is a tuple of exactly that
many row tuples, each with exactly the column count of entries? -/
def isRectMatrix : Ast → Bool
  | .op "matrix" [.op "tuple" [.num r, .num c], .op "tuple" rows] =>
    decide (r = (rows.length : ℚ)) &&
    rows.all (fun row =>
      match row with
      | .op "tuple" es => decide (c = (es.length : ℚ))
      | _ => false)
  | _ => false

/-- C1: the round-trip law fails on the code.  The text parser accepts
"dx/dy", yielding a derivative node, but the text printer's convert throws
"Badly formed ast" on that very tree, so the rendered string never parses
back to anything.  The claim (the round-trip law of the spec) is the stated
intent; the parser emits a node type outside the spec's data model that the
repository's own printer rejects. -/
theorem claim_C1_roundtrip_fails_on_derivative :
    textToAst.convert {} "dx/dy" =
      .ok (.op "derivative_leibniz" [.str "x", .str "y"]) ∧
    astToText.convert {} (.op "derivative_leibniz" [.str "x", .str "y"]) =
      .error "Badly formed ast: operator derivative_leibniz not recognized." := by
  exact ⟨by decide, by decide⟩

/-- C2: the caller-supplied whitespace rule is ignored.  The LaTeX tokenizer
is constructed with `whitespace_rule`, but the `lexer` constructor takes only
the rule table and `advance` skips only literal whitespace; consequently a
quad control sequence lexes as a LATEXCOMMAND token (and parsing it fails
with an unrecognized-command error), the comma and semicolon control
sequences lex as INVALID, and only literal spaces separate the two numbers
successfully. -/
theorem claim_C2_whitespace_rule_ignored :
    (lexer.advance latex_rules { input := "\\quad x".toList, location := 0 }).1 =
      { ttype := "LATEXCOMMAND", text := some "\\quad" } ∧
    latexToAst.convert {} "1\\quad 2" =
      .error { message := "Unrecognized latex command \\quad", location := 6 } ∧
    latexToAst.convert {} "1\\;2" =
      .error { message := "Invalid symbol \x27undefined\x27", location := 1 } ∧
    latexToAst.convert {} "1\\,2" =
      .error { message := "Invalid symbol \x27undefined\x27", location := 1 } ∧
    latexToAst.convert {} "1 2" = .ok (.op "*" [.num 1, .num 2]) := by
  refine ⟨by decide, by decide, by decide, by decide, by decide⟩

/-- C3: an unmatched character produces an INVALID token that carries no
text at all (the source returns a one-element array), so the parse error
interpolates undefined and reads "Invalid symbol 'undefined'" instead of
naming the offending character; the repository's own test expects the
message to name the at-sign. -/
theorem claim_C3_invalid_token_carries_no_character :
    (lexer.advance text_rules { input := "@2".toList, location := 0 }).1 =
      { ttype := "INVALID", text := none } ∧
    textToAst.convert {} "x@2" =
      .error { message := "Invalid symbol \x27undefined\x27", location := 1 } := by
  exact ⟨by decide, by decide⟩

/-- C5: a maximal run of same-direction less-than and less-or-equal
operators collapses into a single lts node holding the operand tuple and the
parallel strictness tuple. -/
theorem claim_C5_chained_lts :
    textToAst.convert {} "x<y<=z" =
      .ok (.op "lts" [.op "tuple" [.str "x", .str "y", .str "z"],
                      .op "tuple" [.bool true, .bool false]]) := by decide

/-- C6: a mismatched two-element bracket pair yields a half-open interval
with the closed flags of the claim, a matched square pair yields a
two-element array, and a mismatched pair with three elements raises the
expected-token error. -/
theorem claim_C6_interval_array_mismatch :
    textToAst.convert {} "(1,2]" =
      .ok (.op "interval" [.op "tuple" [.num 1, .num 2],
                           .op "tuple" [.bool false, .bool true]]) ∧
    textToAst.convert {} "[1,2]" = .ok (.op "array" [.num 1, .num 2]) ∧
    textToAst.convert {} "[1,2,3)" =
      .error { message := "Expected ]", location := 7 } := by
  refine ⟨by decide, by decide, by decide⟩

/-- C7: simplified function application is gated by the constructor option:
allowed, the next factor becomes the argument; disallowed, the parse fails
expecting an opening parenthesis after the function name. -/
theorem claim_C7_simplified_application_gating :
    textToAst.convert {} "sin x" = .ok (.op "apply" [.str "sin", .str "x"]) ∧
    textToAst.convert { allowSimplifiedFunctionApplication := false } "sin x" =
      .error { message := "Expected ( after function", location := 5 } := by
  exact ⟨by decide, by decide⟩

/-- C8: with the default configuration a multi-letter identifier is split
character-by-character and recombined by implicit multiplication; with
splitting disabled it stays one symbol; and the split decision is never
taken for a multi-character lexical token, a configured unsplit symbol, a
single character, or an identifier containing a digit (witnessed also by
concrete parses of pi, x, xyz2 and the spade glyph). -/
theorem claim_C8_symbol_splitting :
    textToAst.convert {} "xyz" = .ok (.op "*" [.str "x", .str "y", .str "z"]) ∧
    textToAst.convert { splitSymbols := false } "xyz" = .ok (.str "xyz") ∧
    (∀ (cfg : textToAst.Config) (tt text : String),
      tt = "VARMULTICHAR" ∨ cfg.unsplitSymbols.contains text = true ∨
        text.toList.length = 1 ∨ text.toList.any isAsciiDigit = true →
      textToAst.splitDecision cfg tt text = false) ∧
    textToAst.convert {} "pi" = .ok (.str "pi") ∧
    textToAst.convert {} "x" = .ok (.str "x") ∧
    textToAst.convert {} "xyz2" = .ok (.str "xyz2") ∧
    textToAst.convert {} "♠" = .ok (.str "spade") := by
  refine ⟨by decide, by decide, ?_, by decide, by decide, by decide, by decide⟩
  intro cfg tt text h
  unfold textToAst.splitDecision
  rcases h with h | h | h | h
  · simp [h]
  · simp [h]
    intro _ _ hmem _
    exact absurd (by simpa using h) hmem
  · simp [h]
    intro _ _ _ hlen
    exact absurd h hlen
  · simp [h]
    intro _ _ _ _
    simpa using h

/-- C8 witness: the split decision at a concrete unsplit symbol. -/
theorem claim_C8_witness :
    textToAst.splitDecision {} "VAR" "pi" = false :=
  claim_C8_symbol_splitting.2.2.1 {} "VAR" "pi" (Or.inr (Or.inl (by decide)))

/-- C9 counterexample: a one-element curly group whose element is an
array-shaped node does not yield a singleton set node holding that element.
The concat of the set tag with the result splices the array, so the text
input of x+y in curly braces parses to a three-operand set whose first
operand is the plus tag string, which differs from the set holding the sum
as its single element. -/
theorem claim_C9_counterexample :
    textToAst.convert {} "\x7bx+y\x7d" =
      .ok (.op "set" [.str "+", .str "x", .str "y"]) ∧
    Ast.op "set" [.str "+", .str "x", .str "y"] ≠
      Ast.op "set" [.op "+" [.str "x", .str "y"]] :=
  ⟨by decide, by decide⟩

/-- C9 (amended): in both flavors the curly-brace set notation (the plain
brace pair of the text syntax, the escaped brace pair of the LaTeX syntax)
turns a single element into a set node: a singleton set when the element is
a non-array value (a number or a symbol), but when the element is an
array-shaped node the concat splices it, so the set node holds the
element's tag string followed by its operands (x+y in curly braces yields
the three-operand set of the plus tag, x and y, in both flavors).  Two or
more comma-separated elements make a set; one-element round or square
groups unwrap; two-element round and square groups make tuples and arrays
respectively. -/
theorem claim_C9_group_classification :
    textToAst.convert {} "\x7bx\x7d" = .ok (.op "set" [.str "x"]) ∧
    textToAst.convert {} "\x7bx+y\x7d" =
      .ok (.op "set" [.str "+", .str "x", .str "y"]) ∧
    textToAst.convert {} "\x7bx,y\x7d" = .ok (.op "set" [.str "x", .str "y"]) ∧
    textToAst.convert {} "(x)" = .ok (.str "x") ∧
    textToAst.convert {} "[x]" = .ok (.str "x") ∧
    textToAst.convert {} "(x,y)" = .ok (.op "tuple" [.str "x", .str "y"]) ∧
    textToAst.convert {} "[x,y]" = .ok (.op "array" [.str "x", .str "y"]) ∧
    latexToAst.convert {} "\\\x7bx\\\x7d" = .ok (.op "set" [.str "x"]) ∧
    latexToAst.convert {} "\\\x7bx+y\\\x7d" =
      .ok (.op "set" [.str "+", .str "x", .str "y"]) ∧
    latexToAst.convert {} "\\\x7bx,y\\\x7d" = .ok (.op "set" [.str "x", .str "y"]) ∧
    latexToAst.convert {} "(x)" = .ok (.str "x") ∧
    latexToAst.convert {} "[x]" = .ok (.str "x") ∧
    latexToAst.convert {} "(x,y)" = .ok (.op "tuple" [.str "x", .str "y"]) ∧
    latexToAst.convert {} "[x,y]" = .ok (.op "array" [.str "x", .str "y"]) := by
  refine ⟨by decide, by decide, by decide, by decide, by decide, by decide,
    by decide, by decide, by decide, by decide, by decide, by decide,
    by decide, by decide⟩

theorem textToAst.relationLoop_exit (fuel : Nat) (cfg : textToAst.Config)
    (lhs : Ast) (st : PState)
    (h : relationalTokenTypes.contains st.token.ttype = false) :
    textToAst.relationLoop (fuel+1) cfg lhs st = .ok (lhs, st) := by
  unfold textToAst.relationLoop
  split
  · simp_all
  · rfl

theorem textToAst.relationLoop_lt_step (fuel : Nat) (cfg : textToAst.Config)
    (lhs rhs : Ast) (st s1 s2 : PState)
    (h1 : st.token.ttype = "<")
    (h2 : textToAst.advance st = .ok s1)
    (h3 : textToAst.expression fuel cfg s1 = .ok (rhs, s2))
    (h4 : s2.token.ttype = ">") :
    textToAst.relationLoop (fuel+1) cfg lhs st =
      textToAst.relationLoop fuel cfg (.op "<" [lhs, rhs]) s2 := by
  conv_lhs => unfold textToAst.relationLoop
  simp [h1, h2, h3, h4, jsToLower, relationalTokenTypes]

theorem textToAst.relationLoop_gt_step (fuel : Nat) (cfg : textToAst.Config)
    (lhs rhs : Ast) (st s1 s2 : PState)
    (h1 : st.token.ttype = ">")
    (h2 : textToAst.advance st = .ok s1)
    (h3 : textToAst.expression fuel cfg s1 = .ok (rhs, s2))
    (h4 : relationalTokenTypes.contains s2.token.ttype = false) :
    textToAst.relationLoop (fuel+1) cfg lhs st =
      textToAst.relationLoop fuel cfg (.op ">" [lhs, rhs]) s2 := by
  conv_lhs => unfold textToAst.relationLoop
  have h5 : s2.token.ttype ≠ ">" := by
    intro hc; rw [hc] at h4; simp [relationalTokenTypes] at h4
  have h6 : s2.token.ttype ≠ "GE" := by
    intro hc; rw [hc] at h4; simp [relationalTokenTypes] at h4
  simp [h1, h2, h3, h5, h6, jsToLower, relationalTokenTypes]

theorem textToAst.relation_entry (fuel : Nat) (cfg : textToAst.Config)
    (x : Ast) (st0 st1 : PState)
    (hnot : st0.token.ttype ≠ "NOT") (hbang : st0.token.ttype ≠ "!")
    (hex : textToAst.expression fuel cfg st0 = .ok (x, st1)) :
    textToAst.relation (fuel+1) cfg st0 = textToAst.relationLoop fuel cfg x st1 := by
  unfold textToAst.relation
  simp [hnot, hbang, hex]

theorem latexToAst.relationLoop_exitL (fuel : Nat) (cfg : latexToAst.Config)
    (lhs : Ast) (st : PState)
    (h : relationalTokenTypes.contains st.token.ttype = false) :
    latexToAst.relationLoop (fuel+1) cfg lhs st = .ok (lhs, st) := by
  unfold latexToAst.relationLoop
  split
  · simp_all
  · rfl

theorem latexToAst.relationLoop_lt_stepL (fuel : Nat) (cfg : latexToAst.Config)
    (lhs rhs : Ast) (st s1 s2 : PState)
    (h1 : st.token.ttype = "<")
    (h2 : latexToAst.advance st = .ok s1)
    (h3 : latexToAst.expression fuel cfg s1 = .ok (rhs, s2))
    (h4 : s2.token.ttype = ">") :
    latexToAst.relationLoop (fuel+1) cfg lhs st =
      latexToAst.relationLoop fuel cfg (.op "<" [lhs, rhs]) s2 := by
  conv_lhs => unfold latexToAst.relationLoop
  simp [h1, h2, h3, h4, jsToLower, relationalTokenTypes]

theorem latexToAst.relationLoop_gt_stepL (fuel : Nat) (cfg : latexToAst.Config)
    (lhs rhs : Ast) (st s1 s2 : PState)
    (h1 : st.token.ttype = ">")
    (h2 : latexToAst.advance st = .ok s1)
    (h3 : latexToAst.expression fuel cfg s1 = .ok (rhs, s2))
    (h4 : relationalTokenTypes.contains s2.token.ttype = false) :
    latexToAst.relationLoop (fuel+1) cfg lhs st =
      latexToAst.relationLoop fuel cfg (.op ">" [lhs, rhs]) s2 := by
  conv_lhs => unfold latexToAst.relationLoop
  have h5 : s2.token.ttype ≠ ">" := by
    intro hc; rw [hc] at h4; simp [relationalTokenTypes] at h4
  have h6 : s2.token.ttype ≠ "GE" := by
    intro hc; rw [hc] at h4; simp [relationalTokenTypes] at h4
  simp [h1, h2, h3, h5, h6, jsToLower, relationalTokenTypes]

theorem latexToAst.relation_entryL (fuel : Nat) (cfg : latexToAst.Config)
    (x : Ast) (st0 st1 : PState)
    (hnot : st0.token.ttype ≠ "NOT") (hbang : st0.token.ttype ≠ "!")
    (hex : latexToAst.expression fuel cfg st0 = .ok (x, st1)) :
    latexToAst.relation (fuel+1) cfg st0 = latexToAst.relationLoop fuel cfg x st1 := by
  unfold latexToAst.relation
  simp [hnot, hbang, hex]

/-- C4: in both parser flavors, a mixed-direction chain does not produce a
chained lts or gts node and raises no error: whenever three expressions
parse in sequence around a less-than and then a greater-than token, the
relation production returns the greater-than relation applied to the result
of the less-than relation, associating left to right. -/
theorem claim_C4_mixed_directions_left_assoc :
    (∀ (fuel : Nat) (cfg : textToAst.Config) (x y z : Ast)
       (st0 st1 st2 st3 st4 st5 : PState),
      st0.token.ttype ≠ "NOT" → st0.token.ttype ≠ "!" →
      textToAst.expression (fuel+3) cfg st0 = .ok (x, st1) →
      st1.token.ttype = "<" →
      textToAst.advance st1 = .ok st2 →
      textToAst.expression (fuel+2) cfg st2 = .ok (y, st3) →
      st3.token.ttype = ">" →
      textToAst.advance st3 = .ok st4 →
      textToAst.expression (fuel+1) cfg st4 = .ok (z, st5) →
      relationalTokenTypes.contains st5.token.ttype = false →
      textToAst.relation (fuel+4) cfg st0 =
        .ok (.op ">" [.op "<" [x, y], z], st5)) ∧
    (∀ (fuel : Nat) (cfg : latexToAst.Config) (x y z : Ast)
       (st0 st1 st2 st3 st4 st5 : PState),
      st0.token.ttype ≠ "NOT" → st0.token.ttype ≠ "!" →
      latexToAst.expression (fuel+3) cfg st0 = .ok (x, st1) →
      st1.token.ttype = "<" →
      latexToAst.advance st1 = .ok st2 →
      latexToAst.expression (fuel+2) cfg st2 = .ok (y, st3) →
      st3.token.ttype = ">" →
      latexToAst.advance st3 = .ok st4 →
      latexToAst.expression (fuel+1) cfg st4 = .ok (z, st5) →
      relationalTokenTypes.contains st5.token.ttype = false →
      latexToAst.relation (fuel+4) cfg st0 =
        .ok (.op ">" [.op "<" [x, y], z], st5)) := by
  constructor
  · intro fuel cfg x y z st0 st1 st2 st3 st4 st5 hnot hbang hex1 hlt hadv1 hex2 hgt hadv2 hex3 hend
    rw [textToAst.relation_entry (fuel+3) cfg x st0 st1 hnot hbang hex1]
    rw [textToAst.relationLoop_lt_step (fuel+2) cfg x y st1 st2 st3 hlt hadv1 hex2 hgt]
    rw [textToAst.relationLoop_gt_step (fuel+1) cfg (.op "<" [x, y]) z st3 st4 st5 hgt hadv2 hex3 hend]
    exact textToAst.relationLoop_exit fuel cfg _ st5 hend
  · intro fuel cfg x y z st0 st1 st2 st3 st4 st5 hnot hbang hex1 hlt hadv1 hex2 hgt hadv2 hex3 hend
    rw [latexToAst.relation_entryL (fuel+3) cfg x st0 st1 hnot hbang hex1]
    rw [latexToAst.relationLoop_lt_stepL (fuel+2) cfg x y st1 st2 st3 hlt hadv1 hex2 hgt]
    rw [latexToAst.relationLoop_gt_stepL (fuel+1) cfg (.op "<" [x, y]) z st3 st4 st5 hgt hadv2 hex3 hend]
    exact latexToAst.relationLoop_exitL fuel cfg _ st5 hend

/-- C4 witness: both relation parsers on the token stream of a<b>c. -/
theorem claim_C4_witness :
    textToAst.relation 10 {}
      { lex := { input := "<b>c".toList, location := 1 },
        token := { ttype := "VAR", text := some "a" } } =
      .ok (.op ">" [.op "<" [.str "a", .str "b"], .str "c"],
           { lex := { input := [], location := 5 },
             token := { ttype := "EOF", text := none } }) ∧
    latexToAst.relation 10 {}
      { lex := { input := "<b>c".toList, location := 1 },
        token := { ttype := "VAR", text := some "a" } } =
      .ok (.op ">" [.op "<" [.str "a", .str "b"], .str "c"],
           { lex := { input := [], location := 5 },
             token := { ttype := "EOF", text := none } }) := by
  constructor
  · exact claim_C4_mixed_directions_left_assoc.1 6 {} (.str "a") (.str "b") (.str "c")
      { lex := { input := "<b>c".toList, location := 1 },
        token := { ttype := "VAR", text := some "a" } }
      { lex := { input := "b>c".toList, location := 2 },
        token := { ttype := "<", text := some "<" } }
      { lex := { input := ">c".toList, location := 3 },
        token := { ttype := "VAR", text := some "b" } }
      { lex := { input := "c".toList, location := 4 },
        token := { ttype := ">", text := some ">" } }
      { lex := { input := [], location := 5 },
        token := { ttype := "VAR", text := some "c" } }
      { lex := { input := [], location := 5 },
        token := { ttype := "EOF", text := none } }
      (by decide) (by decide) (by decide) (by decide) (by decide)
      (by decide) (by decide) (by decide) (by decide) (by decide)
  · exact claim_C4_mixed_directions_left_assoc.2 6 {} (.str "a") (.str "b") (.str "c")
      { lex := { input := "<b>c".toList, location := 1 },
        token := { ttype := "VAR", text := some "a" } }
      { lex := { input := "b>c".toList, location := 2 },
        token := { ttype := "<", text := some "<" } }
      { lex := { input := ">c".toList, location := 3 },
        token := { ttype := "VAR", text := some "b" } }
      { lex := { input := "c".toList, location := 4 },
        token := { ttype := ">", text := some ">" } }
      { lex := { input := [], location := 5 },
        token := { ttype := "VAR", text := some "c" } }
      { lex := { input := [], location := 5 },
        token := { ttype := "EOF", text := none } }
      (by decide) (by decide) (by decide) (by decide) (by decide)
      (by decide) (by decide) (by decide) (by decide) (by decide)

/-- Loop invariant of the matrix-collection loop: on success, every
completed row is no longer than the running column maximum, the current row
length equals its running count, and the number of completed rows equals
the running row count. -/
theorem latexToAst.matrixLoop_invariant (fuel : Nat) :
    ∀ (cfg : latexToAst.Config) (all_rows : List (List Ast))
      (row : List Ast) (n_this_row n_rows n_cols : Nat) (last_token : String)
      (st : PState) (rows2 : List (List Ast)) (row2 : List Ast)
      (nthis2 nrows2 ncols2 : Nat) (last2 : String) (st2 : PState),
      latexToAst.matrixLoop fuel cfg all_rows row n_this_row n_rows n_cols last_token st =
        .ok (rows2, row2, nthis2, nrows2, ncols2, last2, st2) →
      (∀ r ∈ all_rows, r.length ≤ n_cols) →
      row.length = n_this_row →
      all_rows.length = n_rows →
      (∀ r ∈ rows2, r.length ≤ ncols2) ∧ row2.length = nthis2 ∧
        rows2.length = nrows2 := by
  induction fuel with
  | zero =>
    intro cfg all_rows row nthis nrows ncols last st rows2 row2 nthis2 nrows2 ncols2 last2 st2 h
    simp [latexToAst.matrixLoop] at h
  | succ fuel ih =>
    intro cfg all_rows row nthis nrows ncols last st rows2 row2 nthis2 nrows2 ncols2 last2 st2 h h1 h2 h3
    unfold latexToAst.matrixLoop at h
    split at h
    case isTrue hne =>
      split at h
      case isTrue hamp =>
        cases hadv : latexToAst.advance st with
        | error e =>
          rw [hadv] at h
          simp at h
        | ok stn =>
          rw [hadv] at h
          simp only [] at h
          by_cases hpad : (decide (last = "&") || decide (last = "LINEBREAK")) = true
          · simp only [if_pos hpad] at h
            exact ih cfg all_rows (row ++ [Ast.num 0]) (nthis+1) nrows ncols "&" stn
              rows2 row2 nthis2 nrows2 ncols2 last2 st2 h h1 (by simp [h2]) h3
          · simp only [if_neg hpad] at h
            exact ih cfg all_rows row nthis nrows ncols "&" stn
              rows2 row2 nthis2 nrows2 ncols2 last2 st2 h h1 h2 h3
      case isFalse hnamp =>
        split at h
        case isTrue hlb =>
          cases hadv : latexToAst.advance st with
          | error e =>
            rw [hadv] at h
            simp at h
          | ok stn =>
            rw [hadv] at h
            simp only [] at h
            by_cases hpad : (decide (last = "&") || decide (last = "LINEBREAK")) = true
            · simp only [if_pos hpad] at h
              refine ih cfg (all_rows ++ [row ++ [Ast.num 0]]) [] 0 (nrows+1)
                (if nthis + 1 > ncols then nthis + 1 else ncols) "LINEBREAK" stn
                rows2 row2 nthis2 nrows2 ncols2 last2 st2 h ?_ rfl (by simp [h3])
              intro r hr
              rcases List.mem_append.mp hr with hr | hr
              · exact le_trans (h1 r hr) (by split <;> omega)
              · simp only [List.mem_singleton] at hr
                subst hr
                simp only [List.length_append, List.length_singleton, h2]
                split <;> omega
            · simp only [if_neg hpad] at h
              refine ih cfg (all_rows ++ [row]) [] 0 (nrows+1)
                (if nthis > ncols then nthis else ncols) "LINEBREAK" stn
                rows2 row2 nthis2 nrows2 ncols2 last2 st2 h ?_ rfl (by simp [h3])
              intro r hr
              rcases List.mem_append.mp hr with hr | hr
              · exact le_trans (h1 r hr) (by split <;> omega)
              · simp only [List.mem_singleton] at hr
                subst hr
                rw [h2]
                split <;> omega
        case isFalse hnlb =>
          cases hstmt : latexToAst.statement fuel cfg st with
          | error e =>
            rw [hstmt] at h
            simp at h
          | ok p =>
            rw [hstmt] at h
            simp only [] at h
            exact ih cfg all_rows (row ++ [p.1]) (nthis+1) nrows ncols " " p.2
              rows2 row2 nthis2 nrows2 ncols2 last2 st2 h h1 (by simp [h2]) h3
    case isFalse hend =>
      simp only [Except.ok.injEq, Prod.mk.injEq] at h
      obtain ⟨e1, e2, e3, e4, e5, e6, e7⟩ := h
      subst e1; subst e2; subst e3; subst e4; subst e5
      exact ⟨h1, h2, h3⟩

/-- Padding every row of a list up to a common column count produces a
rectangular matrix body. -/
theorem isRectMatrix_pad (rows : List (List Ast)) (ncols : Nat)
    (h : ∀ r ∈ rows, r.length ≤ ncols) :
    isRectMatrix (.op "matrix" [.op "tuple" [.num (rows.length : ℚ), .num (ncols : ℚ)],
      .op "tuple" (rows.map (fun r =>
        Ast.op "tuple" (r ++ List.replicate (ncols - r.length) (Ast.num 0))))]) = true := by
  simp only [isRectMatrix, List.length_map, Bool.and_eq_true, decide_eq_true_eq,
    List.all_eq_true]
  refine ⟨trivial, ?_⟩
  intro x hx
  rcases List.mem_map.mp hx with ⟨r, hr, rfl⟩
  simp only [List.length_append, List.length_replicate, decide_eq_true_eq]
  rw [Nat.add_sub_cancel' (h r hr)]

/-- C10: every matrix node returned by the LaTeX parser from a matrix,
pmatrix or bmatrix environment is rectangular: it carries the 2-tuple of
row and column counts and a body that is a tuple of exactly that many row
tuples, each padded on the right with zeros up to the column count. -/
theorem claim_C10_matrix_rectangular (fuel : Nat) (cfg : latexToAst.Config)
    (environment : String) (st st2 : PState) (m : Ast)
    (h : latexToAst.matrixEnv fuel cfg environment st = .ok (m, st2)) :
    isRectMatrix m = true := by
  match fuel with
  | 0 => simp [latexToAst.matrixEnv] at h
  | fuel+1 =>
    unfold latexToAst.matrixEnv at h
    cases hadv : latexToAst.advance st with
    | error e => rw [hadv] at h; simp at h
    | ok st1 =>
      rw [hadv] at h
      simp only [] at h
      cases hloop : latexToAst.matrixLoop fuel cfg [] [] 0 0 0 st.token.ttype st1 with
      | error e => rw [hloop] at h; simp at h
      | ok out =>
        obtain ⟨rows1, row1, nthis1, nrows1, ncols1, last1, stl⟩ := out
        rw [hloop] at h
        simp only [] at h
        obtain ⟨hinv1, hinv2, hinv3⟩ :=
          latexToAst.matrixLoop_invariant fuel cfg [] [] 0 0 0 st.token.ttype st1
            rows1 row1 nthis1 nrows1 ncols1 last1 stl hloop (by simp) rfl rfl
        split at h
        case isTrue => simp at h
        case isFalse henv =>
          cases hadv2 : latexToAst.advance stl with
          | error e => rw [hadv2] at h; simp at h
          | ok stn =>
            rw [hadv2] at h
            simp only [Except.ok.injEq, Prod.mk.injEq] at h
            obtain ⟨hm, hst⟩ := h
            subst hm
            by_cases hamp : last1 = "&"
            · simp only [if_pos hamp]
              have hb : ∀ r ∈ rows1 ++ [row1 ++ [Ast.num 0]],
                  r.length ≤ (if nthis1 + 1 > ncols1 then nthis1 + 1 else ncols1) := by
                intro r hr
                rcases List.mem_append.mp hr with hr | hr
                · exact le_trans (hinv1 r hr) (by split <;> omega)
                · simp only [List.mem_singleton] at hr
                  subst hr
                  simp only [List.length_append, List.length_singleton]
                  rw [hinv2]
                  split <;> omega
              have hpad := isRectMatrix_pad (rows1 ++ [row1 ++ [Ast.num 0]])
                (if nthis1 + 1 > ncols1 then nthis1 + 1 else ncols1) hb
              have hlen : (rows1 ++ [row1 ++ [Ast.num 0]]).length = nrows1 + 1 := by
                simp [hinv3]
              rw [hlen] at hpad
              exact hpad
            · simp only [if_neg hamp]
              have hb : ∀ r ∈ rows1 ++ [row1],
                  r.length ≤ (if nthis1 > ncols1 then nthis1 else ncols1) := by
                intro r hr
                rcases List.mem_append.mp hr with hr | hr
                · exact le_trans (hinv1 r hr) (by split <;> omega)
                · simp only [List.mem_singleton] at hr
                  subst hr
                  rw [hinv2]
                  split <;> omega
              have hpad := isRectMatrix_pad (rows1 ++ [row1])
                (if nthis1 > ncols1 then nthis1 else ncols1) hb
              have hlen : (rows1 ++ [row1]).length = nrows1 + 1 := by
                simp [hinv3]
              rw [hlen] at hpad
              exact hpad

/-- C10 witness: the environment with rows 1&2 and 3 produces the 2-by-2
matrix whose second row is right-padded with the number 0. -/
theorem claim_C10_witness :
    isRectMatrix (.op "matrix" [.op "tuple" [.num 2, .num 2],
      .op "tuple" [.op "tuple" [.num 1, .num 2],
                   .op "tuple" [.num 3, .num 0]]]) = true :=
  claim_C10_matrix_rectangular 50 {} "pmatrix"
    { lex := { input := "1&2\\\\3\\end\x7bpmatrix\x7d".toList, location := 15 },
      token := { ttype := "BEGINENVIRONMENT", text := some "\\begin\x7bpmatrix\x7d" } }
    { lex := { input := [], location := 34 },
      token := { ttype := "EOF", text := none } }
    (.op "matrix" [.op "tuple" [.num 2, .num 2],
      .op "tuple" [.op "tuple" [.num 1, .num 2],
                   .op "tuple" [.num 3, .num 0]]])
    (by decide)
